import Mathlib

/-!
Verification of the cifix_learn backend (FastAPI + SQLAlchemy) against its
natural-language specification.  The relevant Python functions are shallowly
embedded: database tables become lists of records, SQLAlchemy queries become
list filters, and fallible operations return values in an Except monad.
Python exceptions (ValueError, sqlalchemy MultipleResultsFound,
NoForeignKeysError, ...) are the error branch of Except.
-/

namespace CifixLearn

/-- Embedding of sqlalchemy's Result.scalar_one_or_none on an executed
query result (a list of rows): no row gives none, one row gives that row,
and several rows raise MultipleResultsFound. -/
def scalarOneOrNone {α : Type} (rows : List α) : Except String (Option α) :=
  match rows with
  | [] => .ok none
  | [a] => .ok (some a)
  | _ => .error "MultipleResultsFound"

/-- Helper used below: replacement of all non-overlapping occurrences of
pat in a character list, scanning left to right, exactly like Python's
str.replace.  The first argument is fuel (the length of the scanned list),
so the definition is structurally recursive and kernel-reducible. -/
def replaceCharsAux (pat rep : List Char) : Nat → List Char → List Char
  | 0, l => l
  | _ + 1, [] => []
  | fuel + 1, a :: rest =>
    if pat ≠ [] ∧ pat.isPrefixOf (a :: rest) then
      rep ++ replaceCharsAux pat rep fuel ((a :: rest).drop pat.length)
    else
      a :: replaceCharsAux pat rep fuel rest

/-- Embedding of Python str.replace (replace every occurrence of pat by rep). -/
def pyReplace (s pat rep : String) : String :=
  String.mk (replaceCharsAux pat.data rep.data s.data.length s.data)

/-- Embedding of Python str.lower (the emails, slugs and keys in this code
are ASCII, where Char.toLower agrees with Python). -/
def pyLower (s : String) : String :=
  String.mk (s.data.map Char.toLower)

/-- Embedding of the Python substring test needle in hay.  An empty needle
is contained in every string, as in Python. -/
def containsSub (hay needle : List Char) : Bool :=
  needle.isPrefixOf hay ||
    match hay with
    | [] => false
    | _ :: t => containsSub t needle

/-- String version of containsSub. -/
def strContains (hay needle : String) : Bool :=
  containsSub hay.data needle.data

/-! ## Data model (app/models/user.py), fields the claims use.
Identifiers (UUID columns) are modelled as natural numbers, timestamps as
natural numbers, nullable columns as Option. -/

/-- Row of the learning_paths table. -/
structure LearningPath where
  id : Nat
  name : String
  slug : String
  is_active : Bool
  deriving Repr, DecidableEq

/-- Row of the learning_modules table. -/
structure LearningModule where
  id : Nat
  path_id : Nat
  sort_order : Int
  is_active : Bool
  deriving Repr, DecidableEq

/-- Row of the student_learning_paths table. -/
structure StudentLearningPath where
  id : Nat
  student_id : Nat
  path_id : Nat
  progress_percentage : Int
  assigned_at : Nat
  started_at : Option Nat
  completed_at : Option Nat
  is_active : Bool
  deriving Repr, DecidableEq

/-- Row of the student_module_progress table. -/
structure StudentModuleProgress where
  id : Nat
  student_id : Nat
  module_id : Nat
  student_path_id : Nat
  status : String
  progress_percentage : ℚ
  time_spent_minutes : Int
  started_at : Option Nat
  completed_at : Option Nat
  last_accessed : Option Nat
  notes : Option String
  deriving Repr, DecidableEq

/-- Row of the achievement_types table. -/
structure AchievementType where
  id : Nat
  name : String
  points : Int
  deriving Repr, DecidableEq

/-- Row of the student_achievements table. -/
structure StudentAchievement where
  student_id : Nat
  achievement_type_id : Nat
  earned_at : Nat
  deriving Repr, DecidableEq

/-- The tables touched by LearningService, as one state record. -/
structure LearnDb where
  paths : List LearningPath
  modules : List LearningModule
  studentPaths : List StudentLearningPath
  progresses : List StudentModuleProgress
  achievementTypes : List AchievementType
  studentAchievements : List StudentAchievement
  deriving Repr, DecidableEq

/-! ## C1: LearningService.find_learning_path_by_name
(app/services/learning_service.py lines 24-91). -/

/-- The slug computed at learning_service.py line 44:
path_name.lower().replace(' ', '-').replace('&', '').replace('  ', '-').
After all single spaces are replaced the final replacement of two spaces
by a hyphen never fires; the result is the lowercased input with spaces
turned into hyphens and ampersands removed. -/
def slugify (path_name : String) : String :=
  pyReplace (pyReplace (pyReplace (pyLower path_name) " " "-") "&" "") "  " "-"

/-- The name_mappings dict of learning_service.py lines 58-77, in Python
insertion (= iteration) order. -/
def nameMappings : List (String × String) :=
  [("game", "game-development"),
   ("gaming", "game-development"),
   ("games", "game-development"),
   ("ai", "ai-machine-learning"),
   ("artificial intelligence", "ai-machine-learning"),
   ("machine learning", "ai-machine-learning"),
   ("web", "web-development"),
   ("website", "web-development"),
   ("websites", "web-development"),
   ("robot", "robotics"),
   ("robots", "robotics"),
   ("data", "data-science"),
   ("analytics", "data-science"),
   ("mobile", "mobile-app-development"),
   ("app", "mobile-app-development"),
   ("apps", "mobile-app-development"),
   ("programming", "general-programming"),
   ("coding", "general-programming")]

/-- Query predicate: active path with the given name. -/
def nameMatch (path_name : String) (p : LearningPath) : Bool :=
  p.name == path_name && p.is_active

/-- Query predicate: active path with the given slug. -/
def slugMatch (slug : String) (p : LearningPath) : Bool :=
  p.slug == slug && p.is_active

/-- Embedding of LearningService.find_learning_path_by_name: exact name
query, then slug query, then the first name_mappings key contained in the
lowercased input (returning that single query's result immediately),
else None. -/
def findLearningPathByName (path_name : String) (db : List LearningPath) :
    Except String (Option LearningPath) := do
  let r1 ← scalarOneOrNone (db.filter (nameMatch path_name))
  match r1 with
  | some p => return (some p)
  | none =>
    let slug := slugify path_name
    let r2 ← scalarOneOrNone (db.filter (slugMatch slug))
    match r2 with
    | some p => return (some p)
    | none =>
      let path_key := pyLower path_name
      match nameMappings.find? (fun kv => strContains path_key kv.1) with
      | some kv => scalarOneOrNone (db.filter (slugMatch kv.2))
      | none => return none

/-- The claim's description of the recommendation lookup, written from the
spec sentence: the active path whose name equals the input exactly;
otherwise the active path whose slug is the lowercased input with spaces
replaced by hyphens and ampersands removed; otherwise the active path
whose slug is mapped from the first name_mappings key occurring as a
substring of the lowercased input; otherwise none. -/
def specRecommendation (path_name : String) (db : List LearningPath) :
    Option LearningPath :=
  match db.find? (nameMatch path_name) with
  | some p => some p
  | none =>
    match db.find? (slugMatch (slugify path_name)) with
    | some p => some p
    | none =>
      match nameMappings.find? (fun kv => strContains (pyLower path_name) kv.1) with
      | some kv => db.find? (slugMatch kv.2)
      | none => none

/-- On any list, find? returns the head of the filtered list. -/
theorem find?_eq_head?_filter {α : Type} (p : α → Bool) (l : List α) :
    l.find? p = (l.filter p).head? := by
  induction l with
  | nil => rfl
  | cons a t ih =>
    cases h : p a
    · rw [List.find?_cons_of_neg _ (by simp [h]), List.filter_cons_of_neg (by simp [h])]
      exact ih
    · rw [List.find?_cons_of_pos _ h, List.filter_cons_of_pos h]
      rfl

/-- When a query returns at most one row, scalar_one_or_none does not raise
and gives the first (only) matching row. -/
theorem scalarOneOrNone_filter {α : Type} (p : α → Bool) (l : List α)
    (h : (l.filter p).length ≤ 1) :
    scalarOneOrNone (l.filter p) = .ok (l.find? p) := by
  rw [find?_eq_head?_filter]
  rcases hf : l.filter p with _ | ⟨a, _ | ⟨b, t⟩⟩
  · rfl
  · rfl
  · rw [hf] at h; simp at h

/-- C1: for every path-name string, find_learning_path_by_name computes the
keyword-matching lookup described by the spec: the active path whose name
equals the input exactly; otherwise the active path whose slug is the
lowercased input with spaces replaced by hyphens and ampersands removed;
otherwise the active path whose slug is mapped from the first
name_mappings key that occurs as a substring of the lowercased input; and
none when no rule matches.  The hypotheses state the schema's unique
constraints: at most one active path per name and per slug. -/
theorem find_learning_path_by_name_is_lookup_table
    (path_name : String) (db : List LearningPath)
    (hname : (db.filter (nameMatch path_name)).length ≤ 1)
    (hslug : ∀ s, (db.filter (slugMatch s)).length ≤ 1) :
    findLearningPathByName path_name db = .ok (specRecommendation path_name db) := by
  unfold findLearningPathByName specRecommendation
  rw [scalarOneOrNone_filter _ _ hname]
  cases db.find? (nameMatch path_name) with
  | some p => rfl
  | none =>
    simp only [Except.bind]
    rw [scalarOneOrNone_filter _ _ (hslug (slugify path_name))]
    cases db.find? (slugMatch (slugify path_name)) with
    | some p => rfl
    | none =>
      simp only [Except.bind]
      cases nameMappings.find? (fun kv => strContains (pyLower path_name) kv.1) with
      | some kv =>
        dsimp only
        rw [scalarOneOrNone_filter _ _ (hslug kv.2)]
        rfl
      | none => rfl

/-- Small concrete path table used by the C1 witness. -/
def c1Db : List LearningPath :=
  [⟨1, "Robotics", "robotics", true⟩,
   ⟨2, "AI and ML", "ai-machine-learning", true⟩]

/-- The concrete table satisfies the unique-slug hypothesis. -/
theorem c1Db_slug_unique (s : String) :
    ((c1Db).filter (slugMatch s)).length ≤ 1 := by
  rcases eq_or_ne s "robotics" with h1 | h1
  · subst h1; decide
  · rcases eq_or_ne s "ai-machine-learning" with h2 | h2
    · subst h2; decide
    · have e1 : (("robotics" : String) == s) = false :=
        beq_eq_false_iff_ne.mpr (Ne.symm h1)
      have e2 : (("ai-machine-learning" : String) == s) = false :=
        beq_eq_false_iff_ne.mpr (Ne.symm h2)
      simp [c1Db, List.filter_cons, slugMatch, e1, e2]

/-- Witness for C1 at a concrete database and input: the input string
AI Robotics matches neither name nor slug of the stored paths, and its
first matching mapping key is the substring ai, giving the path with slug
ai-machine-learning. -/
theorem find_learning_path_by_name_is_lookup_table_witness :
    (((c1Db).filter (nameMatch "AI Robotics")).length ≤ 1 ∧
      ∀ s, ((c1Db).filter (slugMatch s)).length ≤ 1) ∧
    findLearningPathByName "AI Robotics" c1Db =
      .ok (some ⟨2, "AI and ML", "ai-machine-learning", true⟩) := by
  refine ⟨⟨by decide, c1Db_slug_unique⟩, ?_⟩
  rw [find_learning_path_by_name_is_lookup_table "AI Robotics" c1Db
    (by decide) c1Db_slug_unique]
  exact congrArg Except.ok (by decide)

/-! ## C2: LearningService._is_module_locked (lines 352-389) and
LearningService.start_module (lines 144-227). -/

/-- Query predicate of lines 365-371: active module of the same path whose
sort_order is exactly one less. -/
def prevModulePred (m : LearningModule) (x : LearningModule) : Bool :=
  x.path_id == m.path_id && x.sort_order == m.sort_order - 1 && x.is_active

/-- Query predicate of lines 379-385: completed progress of the student on
the given module. -/
def completedProgressPred (sid pmid : Nat) (p : StudentModuleProgress) : Bool :=
  p.student_id == sid && p.module_id == pmid && p.status == "completed"

/-- Query predicate of lines 165-171: active assignment of the path to the
student. -/
def studentPathPred (sid pathId : Nat) (sp : StudentLearningPath) : Bool :=
  sp.student_id == sid && sp.path_id == pathId && sp.is_active

/-- Query predicate of lines 155-157: module with the given id. -/
def moduleById (mid : Nat) (m : LearningModule) : Bool :=
  m.id == mid

/-- Query predicate of lines 183-188 (and 243-248): the student's progress
record on the given module, any status. -/
def progressFor (sid mid : Nat) (p : StudentModuleProgress) : Bool :=
  p.student_id == sid && p.module_id == mid

/-- Embedding of LearningService._is_module_locked: a module with
sort_order at most 1 is never locked; otherwise look up the active module
one sort position earlier in the same path (no such module means
unlocked), and the module is locked exactly when the student has no
completed progress record on that previous module. -/
def isModuleLocked (sid : Nat) (m : LearningModule) (db : LearnDb) :
    Except String Bool :=
  if m.sort_order ≤ 1 then .ok false
  else
    match scalarOneOrNone (db.modules.filter (prevModulePred m)) with
    | .error e => .error e
    | .ok none => .ok false
    | .ok (some pm) =>
      match scalarOneOrNone (db.progresses.filter (completedProgressPred sid pm.id)) with
      | .error e => .error e
      | .ok pp => .ok pp.isNone

/-- Embedding of LearningService.start_module.  now is the current
timestamp and newId the id the database assigns to a freshly created
progress row.  Raised ValueErrors are the error branch, and an error
leaves the database unchanged (the surrounding session is rolled back and
nothing was committed). -/
def startModule (sid module_id now newId : Nat) (db : LearnDb) :
    Except String (LearnDb × StudentModuleProgress) :=
  match scalarOneOrNone (db.modules.filter (moduleById module_id)) with
  | .error e => .error e
  | .ok none => .error "Module not found"
  | .ok (some module_) =>
    match scalarOneOrNone (db.studentPaths.filter (studentPathPred sid module_.path_id)) with
    | .error e => .error e
    | .ok none => .error "Student does not have access to this module's learning path"
    | .ok (some student_path) =>
      match isModuleLocked sid module_ db with
      | .error e => .error e
      | .ok true => .error "Module is locked. Complete previous modules first."
      | .ok false =>
        match scalarOneOrNone (db.progresses.filter (progressFor sid module_id)) with
        | .error e => .error e
        | .ok (some ep) =>
          let ep2 :=
            if ep.status == "not_started" then
              { ep with status := "in_progress", started_at := some now,
                        last_accessed := some now }
            else
              { ep with last_accessed := some now }
          .ok ({ db with progresses :=
                  db.progresses.map (fun p => if p.id == ep.id then ep2 else p) }, ep2)
        | .ok none =>
          let pr : StudentModuleProgress :=
            ⟨newId, sid, module_id, student_path.id, "in_progress", 0, 0,
             some now, none, some now, none⟩
          .ok ({ db with progresses := db.progresses ++ [pr] }, pr)

/-- Two members of a list both satisfying a predicate whose filter keeps
at most one element are equal. -/
theorem eq_of_filter_length_le_one {α : Type} {p : α → Bool} {l : List α}
    (h : (l.filter p).length ≤ 1) {a b : α}
    (ha : a ∈ l) (hpa : p a) (hb : b ∈ l) (hpb : p b) : a = b := by
  have ha2 : a ∈ l.filter p := List.mem_filter.mpr ⟨ha, hpa⟩
  have hb2 : b ∈ l.filter p := List.mem_filter.mpr ⟨hb, hpb⟩
  rcases hf : l.filter p with _ | ⟨x, _ | ⟨y, t⟩⟩
  · rw [hf] at ha2; simp at ha2
  · rw [hf] at ha2 hb2
    rw [List.mem_singleton] at ha2 hb2
    rw [ha2, hb2]
  · rw [hf] at h; simp at h

/-- Concrete database for the C2 counterexample: one active module with
sort_order 1, and no student path assignment at all. -/
def c2Db : LearnDb :=
  { paths := [⟨1, "Robotics", "robotics", true⟩],
    modules := [⟨1, 1, 1, true⟩],
    studentPaths := [],
    progresses := [],
    achievementTypes := [],
    studentAchievements := [] }

/-- Counterexample to C2 as stated: start_module raises even though the
module is not locked.  Student 7 has no active assignment of path 1, so
start_module raises the access ValueError, while _is_module_locked
reports the module (sort_order 1) unlocked.  Hence start_module does not
raise an error exactly when the module is locked. -/
theorem start_module_error_without_lock :
    isModuleLocked 7 ⟨1, 1, 1, true⟩ c2Db = .ok false ∧
    startModule 7 1 0 99 c2Db =
      .error "Student does not have access to this module's learning path" :=
  ⟨rfl, rfl⟩

/-- C2 amended: the locking state machine as implemented.  Conjuncts:
(1) a module whose sort_order is at most 1 is never locked;
(2) a module with larger sort_order is locked exactly when an active
module with sort_order one less exists in the same path and the student
has no completed progress record on it;
(3) start_module raises when the module id matches no module;
(4) start_module raises when the student has no active assignment of the
module's path;
(5) start_module raises the lock ValueError when the module is locked
(refusing to create or update any progress record: the error branch
carries no new database state and nothing was committed);
(6) start_module succeeds when the module exists, the student has an
active assignment and the module is unlocked.
The hypotheses are the schema's uniqueness invariants (primary keys,
one row per (path, sort_order), per (student, path), per (student,
module)). -/
theorem module_locking_state_machine
    (sid module_id now newId : Nat) (m : LearningModule) (db : LearnDb)
    (hmod : (db.modules.filter (moduleById module_id)).length ≤ 1)
    (hprev : (db.modules.filter (prevModulePred m)).length ≤ 1)
    (hprog : ∀ pmid, (db.progresses.filter (completedProgressPred sid pmid)).length ≤ 1)
    (hsp : ∀ pid, (db.studentPaths.filter (studentPathPred sid pid)).length ≤ 1)
    (hpf : (db.progresses.filter (progressFor sid module_id)).length ≤ 1) :
    (m.sort_order ≤ 1 → isModuleLocked sid m db = .ok false)
    ∧ (1 < m.sort_order →
        (isModuleLocked sid m db = .ok true ↔
          ∃ pm ∈ db.modules, prevModulePred m pm ∧
            ∀ p ∈ db.progresses, ¬ completedProgressPred sid pm.id p))
    ∧ (db.modules.find? (moduleById module_id) = none →
        startModule sid module_id now newId db = .error "Module not found")
    ∧ (∀ m2, db.modules.find? (moduleById module_id) = some m2 →
        db.studentPaths.find? (studentPathPred sid m2.path_id) = none →
        startModule sid module_id now newId db =
          .error "Student does not have access to this module's learning path")
    ∧ (∀ m2 sp2, db.modules.find? (moduleById module_id) = some m2 →
        db.studentPaths.find? (studentPathPred sid m2.path_id) = some sp2 →
        isModuleLocked sid m2 db = .ok true →
        startModule sid module_id now newId db =
          .error "Module is locked. Complete previous modules first.")
    ∧ (∀ m2 sp2, db.modules.find? (moduleById module_id) = some m2 →
        db.studentPaths.find? (studentPathPred sid m2.path_id) = some sp2 →
        isModuleLocked sid m2 db = .ok false →
        ∃ r, startModule sid module_id now newId db = .ok r) := by
  refine ⟨?_, ?_, ?_, ?_, ?_, ?_⟩
  · intro h
    unfold isModuleLocked
    rw [if_pos h]
  · intro h
    unfold isModuleLocked
    rw [if_neg (by omega), scalarOneOrNone_filter _ _ hprev]
    cases hpm : db.modules.find? (prevModulePred m) with
    | none =>
      constructor
      · intro habs
        have h2 : (Except.ok false : Except String Bool) = .ok true := habs
        exact absurd (Except.ok.inj h2) (by simp)
      · rintro ⟨pm, hmem, hpred, -⟩
        exact absurd hpred (by simpa using List.find?_eq_none.mp hpm pm hmem)
    | some pm =>
      dsimp only
      rw [scalarOneOrNone_filter _ _ (hprog pm.id)]
      dsimp only
      constructor
      · intro h2
        have h3 : (Except.ok (db.progresses.find? (completedProgressPred sid pm.id)).isNone :
            Except String Bool) = .ok true := h2
        have h4 := Option.isNone_iff_eq_none.mp (Except.ok.inj h3)
        exact ⟨pm, List.mem_of_find?_eq_some hpm, List.find?_some hpm,
          fun p hp => by simpa using List.find?_eq_none.mp h4 p hp⟩
      · rintro ⟨pm2, hmem2, hpred2, hnone2⟩
        have heq : pm2 = pm :=
          eq_of_filter_length_le_one hprev hmem2 hpred2
            (List.mem_of_find?_eq_some hpm) (List.find?_some hpm)
        subst heq
        have h4 : db.progresses.find? (completedProgressPred sid pm2.id) = none :=
          List.find?_eq_none.mpr (fun p hp => by simpa using hnone2 p hp)
        show (Except.ok (db.progresses.find? (completedProgressPred sid pm2.id)).isNone :
            Except String Bool) = .ok true
        rw [h4]
        rfl
  · intro h
    unfold startModule
    rw [scalarOneOrNone_filter _ _ hmod, h]
  · intro m2 h1 h2
    unfold startModule
    rw [scalarOneOrNone_filter _ _ hmod, h1]
    dsimp only
    rw [scalarOneOrNone_filter _ _ (hsp m2.path_id), h2]
  · intro m2 sp2 h1 h2 hlock
    unfold startModule
    rw [scalarOneOrNone_filter _ _ hmod, h1]
    dsimp only
    rw [scalarOneOrNone_filter _ _ (hsp m2.path_id), h2]
    dsimp only
    rw [hlock]
  · intro m2 sp2 h1 h2 hlock
    unfold startModule
    rw [scalarOneOrNone_filter _ _ hmod, h1]
    dsimp only
    rw [scalarOneOrNone_filter _ _ (hsp m2.path_id), h2]
    dsimp only
    rw [hlock]
    dsimp only
    rw [scalarOneOrNone_filter _ _ hpf]
    cases hex : db.progresses.find? (progressFor sid module_id) with
    | none => exact ⟨_, rfl⟩
    | some ep => exact ⟨_, rfl⟩

/-- Concrete database for the C2 witness: path 1 with modules 1 and 2,
student 7 assigned to the path, module 1 completed. -/
def c2WitnessDb : LearnDb :=
  { paths := [⟨1, "Robotics", "robotics", true⟩],
    modules := [⟨1, 1, 1, true⟩, ⟨2, 1, 2, true⟩],
    studentPaths := [⟨5, 7, 1, 0, 0, none, none, true⟩],
    progresses := [⟨3, 7, 1, 5, "completed", 100, 10, some 1, some 2, some 3, none⟩],
    achievementTypes := [],
    studentAchievements := [] }

/-- Witness for the amended C2 theorem at a concrete database, module 2 of
path 1 for student 7. -/
theorem module_locking_state_machine_witness :
    ((c2WitnessDb.modules.filter (moduleById 2)).length ≤ 1
      ∧ (c2WitnessDb.modules.filter (prevModulePred ⟨2, 1, 2, true⟩)).length ≤ 1
      ∧ (∀ pmid, (c2WitnessDb.progresses.filter (completedProgressPred 7 pmid)).length ≤ 1)
      ∧ (∀ pid, (c2WitnessDb.studentPaths.filter (studentPathPred 7 pid)).length ≤ 1)
      ∧ (c2WitnessDb.progresses.filter (progressFor 7 2)).length ≤ 1)
    ∧ (((⟨2, 1, 2, true⟩ : LearningModule).sort_order ≤ 1 →
          isModuleLocked 7 ⟨2, 1, 2, true⟩ c2WitnessDb = .ok false)
      ∧ (1 < (⟨2, 1, 2, true⟩ : LearningModule).sort_order →
          (isModuleLocked 7 ⟨2, 1, 2, true⟩ c2WitnessDb = .ok true ↔
            ∃ pm ∈ c2WitnessDb.modules, prevModulePred ⟨2, 1, 2, true⟩ pm ∧
              ∀ p ∈ c2WitnessDb.progresses, ¬ completedProgressPred 7 pm.id p))
      ∧ (c2WitnessDb.modules.find? (moduleById 2) = none →
          startModule 7 2 10 99 c2WitnessDb = .error "Module not found")
      ∧ (∀ m2, c2WitnessDb.modules.find? (moduleById 2) = some m2 →
          c2WitnessDb.studentPaths.find? (studentPathPred 7 m2.path_id) = none →
          startModule 7 2 10 99 c2WitnessDb =
            .error "Student does not have access to this module's learning path")
      ∧ (∀ m2 sp2, c2WitnessDb.modules.find? (moduleById 2) = some m2 →
          c2WitnessDb.studentPaths.find? (studentPathPred 7 m2.path_id) = some sp2 →
          isModuleLocked 7 m2 c2WitnessDb = .ok true →
          startModule 7 2 10 99 c2WitnessDb =
            .error "Module is locked. Complete previous modules first.")
      ∧ (∀ m2 sp2, c2WitnessDb.modules.find? (moduleById 2) = some m2 →
          c2WitnessDb.studentPaths.find? (studentPathPred 7 m2.path_id) = some sp2 →
          isModuleLocked 7 m2 c2WitnessDb = .ok false →
          ∃ r, startModule 7 2 10 99 c2WitnessDb = .ok r)) := by
  refine ⟨⟨by decide, by decide,
      fun pmid => le_trans (List.length_filter_le _ _) (by decide),
      fun pid => le_trans (List.length_filter_le _ _) (by decide),
      by decide⟩, ?_⟩
  exact module_locking_state_machine 7 2 10 99 ⟨2, 1, 2, true⟩ c2WitnessDb
    (by decide) (by decide)
    (fun pmid => le_trans (List.length_filter_le _ _) (by decide))
    (fun pid => le_trans (List.length_filter_le _ _) (by decide))
    (by decide)

/-! ## C3: get_current_user (app/routers/auth.py lines 89-119) and
SecurityService.verify_token (app/core/security.py lines 42-53).

The JWT signature and expiry check performed by jose in verify_token is
cryptography outside the repository; it is abstracted by quantifying over
its outcome: a request arrives with either none (verify_token returned
None on JWTError) or some decoded payload.  Of the decoded payload only
the sub claim is read by the code (payload.get with key sub).  User ids.
(UUID columns) are modelled as canonical 32-digit lowercase hex strings;
uuid.UUID value equality is equality of those strings. -/

/-- Row of the users table, fields read by get_current_user. -/
structure AuthUser where
  id : String
  is_active : Bool
  deriving Repr, DecidableEq

/-- Decoded JWT payload; the code reads only payload.get with key sub. -/
structure JwtPayload where
  sub : Option String
  deriving Repr, DecidableEq

/-- Hex digit test of Python int(s, 16) digits. -/
def isHexDigit (c : Char) : Bool :=
  c.isDigit || ('a' ≤ c && c ≤ 'f') || ('A' ≤ c && c ≤ 'F')

/-- Test for the two curly brace characters. -/
def isBraceChar (c : Char) : Bool :=
  c == '\x7b' || c == '\x7d'

/-- Embedding of Python str.strip applied to the two brace characters. -/
def pyStripBraces (s : String) : String :=
  String.mk (((s.data.dropWhile isBraceChar).reverse.dropWhile isBraceChar).reverse)

/-- Modelled from the spec and the Python standard library: the
uuid.UUID(str) constructor, which is called by get_current_user but is
standard-library code outside this repository.  Per its implementation it
strips urn: and uuid: prefixes, braces and hyphens, then requires exactly
32 hex digits, raising ValueError otherwise; equal UUID values have equal
lowercased hex forms, so the parse result is the canonical lowercase
32-digit hex string. -/
def uuidParse (s : String) : Option String :=
  let hex := pyReplace (pyStripBraces (pyReplace (pyReplace s "urn:" "") "uuid:" "")) "-" ""
  if hex.length == 32 && hex.data.all isHexDigit then some (pyLower hex) else none

/-- Failure modes of get_current_user: the HTTP 401 credentials
exception, the unhandled ValueError raised by uuid.UUID on a malformed
sub (which surfaces as an internal server error, not 401), and the
unhandled sqlalchemy MultipleResultsFound. -/
inductive AuthErr
  | http401
  | valueError
  | multipleResults
  deriving Repr, DecidableEq

/-- Query predicate of auth.py line 112: user with the given id that is
active. -/
def activeUserById (uid : String) (u : AuthUser) : Bool :=
  u.id == uid && u.is_active

/-- Embedding of get_current_user.  The function only executes SELECT
statements, so it is a pure read of the user table. -/
def getCurrentUser (payload : Option JwtPayload) (users : List AuthUser) :
    Except AuthErr AuthUser :=
  match payload with
  | none => .error .http401
  | some p =>
    match p.sub with
    | none => .error .http401
    | some s =>
      match uuidParse s with
      | none => .error .valueError
      | some uid =>
        match scalarOneOrNone (users.filter (activeUserById uid)) with
        | .error _ => .error .multipleResults
        | .ok none => .error .http401
        | .ok (some u) => .ok u

/-- An endpoint that depends on get_current_user: the dependency runs
before the endpoint body, and when it raises, the body never runs and the
request changes no state. -/
def runProtected {σ R : Type} (payload : Option JwtPayload) (users : List AuthUser)
    (db : σ) (body : AuthUser → σ → σ × R) : σ × Except AuthErr R :=
  match getCurrentUser payload users with
  | .error e => (db, .error e)
  | .ok u => ((body u db).1, .ok (body u db).2)

/-- Counterexample to C3 as stated: a verified token whose sub claim is
the string xyz identifies no active user, yet the request is not rejected
with 401: uuid.UUID raises an unhandled ValueError (an internal server
error).  The database is still unchanged and the body still does not
run. -/
theorem get_current_user_malformed_sub_not_401 :
    runProtected (some ⟨some "xyz"⟩) ([] : List AuthUser) (0 : Nat)
        (fun _ n => (n + 1, true)) = (0, .error .valueError) ∧
      AuthErr.valueError ≠ AuthErr.http401 :=
  ⟨rfl, by decide⟩

/-- C3 amended: for every request whose bearer token fails verification,
or whose decoded payload lacks a sub claim, or whose sub claim parses as
a UUID that identifies no active user, the request is rejected with HTTP
401 before the endpoint body runs and no database state is changed.  (A
sub claim that is not a parseable UUID instead raises an unhandled
ValueError; see the counterexample.) -/
theorem jwt_auth_guard {σ R : Type} (payload : Option JwtPayload)
    (users : List AuthUser) (db : σ) (body : AuthUser → σ → σ × R)
    (hfail : payload = none ∨
      (∃ p, payload = some p ∧ p.sub = none) ∨
      (∃ p s uid, payload = some p ∧ p.sub = some s ∧ uuidParse s = some uid ∧
        ∀ u ∈ users, ¬ activeUserById uid u)) :
    runProtected payload users db body = (db, .error .http401) := by
  rcases hfail with h | ⟨p, hp, hsub⟩ | ⟨p, s, uid, hp, hsub, hparse, hnone⟩
  · subst h; rfl
  · subst hp
    unfold runProtected getCurrentUser
    dsimp only
    rw [hsub]
  · subst hp
    unfold runProtected getCurrentUser
    dsimp only
    rw [hsub]
    dsimp only
    rw [hparse]
    dsimp only
    have hfil : users.filter (activeUserById uid) = [] :=
      List.filter_eq_nil_iff.mpr hnone
    rw [hfil]
    rfl

/-- Witness for C3: a syntactically valid UUID sub claim whose user row
exists but is inactive; the request is rejected with 401 and the state
(here a counter) is unchanged. -/
theorem jwt_auth_guard_witness :
    (uuidParse "12345678-1234-1234-1234-123456789abc" =
        some "12345678123412341234123456789abc" ∧
      ∀ u ∈ ([⟨"12345678123412341234123456789abc", false⟩] : List AuthUser),
        ¬ activeUserById "12345678123412341234123456789abc" u) ∧
    runProtected (some ⟨some "12345678-1234-1234-1234-123456789abc"⟩)
        [⟨"12345678123412341234123456789abc", false⟩] (42 : Nat)
        (fun _ n => (n + 1, false)) = (42, .error .http401) := by
  refine ⟨⟨rfl, by decide⟩, ?_⟩
  exact jwt_auth_guard _ _ _ _
    (Or.inr (Or.inr ⟨_, _, "12345678123412341234123456789abc", rfl, rfl, rfl,
      by decide⟩))

/-! ## C4: per-endpoint in-memory rate limiting.

Python resolves the import app.middleware to the package
app/middleware/__init__.py (a package shadows the sibling module
app/middleware.py, whose slowapi-based decorators are therefore dead
code), so the limiter the endpoints use is the decorator defined there:
a shared dict _rate_limit_storage mapping a key (endpoint function name
plus client identifier) to a dict from window-start timestamps to
request counts.  Timestamps are seconds as returned by time.time,
modelled as integers (Python floor division of the non-negative
timestamps time.time produces agrees with integer division here). -/

/-- Lookup in a Python dict modelled as an association list. -/
def dictGet {α β : Type} [BEq α] (l : List (α × β)) (k : α) : Option β :=
  (l.find? (fun e => e.1 == k)).map (fun e => e.2)

/-- Update of a Python dict modelled as an association list: replace the
value of an existing key, otherwise append the new binding. -/
def dictSet {α β : Type} [BEq α] (l : List (α × β)) (k : α) (v : β) : List (α × β) :=
  if (l.find? (fun e => e.1 == k)).isSome then
    l.map (fun e => if e.1 == k then (k, v) else e)
  else l ++ [(k, v)]

/-- The module-level _rate_limit_storage dict. -/
structure RateState where
  storage : List (String × List (ℤ × Nat))
  deriving Repr, DecidableEq

/-- The storage key: endpoint function name, colon, identifier (the user
id when request.state.user_id is set — nothing in this codebase sets it —
else the client address). -/
def limiterKey (funcName clientIp : String) (userId : Option String) : String :=
  funcName ++ ":" ++ (match userId with | some u => u | none => clientIp)

/-- Embedding of one execution of the wrapper produced by
rate_limit_strict / rate_limit_normal / rate_limit_relaxed (the three
bodies are identical except for their default parameters): compute the
identifier (user id if set on request state, else client address), let
localhost addresses through without limiting, drop entries older than
the window, reject with HTTP 429 when the surviving counts reach the
limit, otherwise record the request under the bucket
int(current_time // window) * window.  The returned Bool is whether the
wrapped endpoint body runs. -/
def rateLimitStep (requests window : Nat) (funcName clientIp : String)
    (userId : Option String) (t : ℤ) (st : RateState) : RateState × Bool :=
  if clientIp == "127.0.0.1" || clientIp == "localhost" || clientIp == "::1" then
    (st, true)
  else
    let key := limiterKey funcName clientIp userId
    let old := (dictGet st.storage key).getD []
    let cleaned := old.filter (fun e => t - e.1 < (window : ℤ))
    let total := (cleaned.map (fun e => e.2)).sum
    if requests ≤ total then
      ({ storage := dictSet st.storage key cleaned }, false)
    else
      let ws : ℤ := t / (window : ℤ) * (window : ℤ)
      let count := ((cleaned.find? (fun e => e.1 == ws)).map (fun e => e.2)).getD 0
      ({ storage := dictSet st.storage key (dictSet cleaned ws (count + 1)) }, true)

/-- Run a sequence of requests (their arrival times) through the
limiter, returning the final state and the per-request decision. -/
def processSeq (requests window : Nat) (funcName clientIp : String)
    (userId : Option String) : List ℤ → RateState → RateState × List Bool
  | [], st => (st, [])
  | t :: ts, st =>
    let r1 := rateLimitStep requests window funcName clientIp userId t st
    let r2 := processSeq requests window funcName clientIp userId ts r1.1
    (r2.1, r1.2 :: r2.2)

/-- Rate limit parameters of the login endpoint (auth.py line 220):
5 requests per 300 seconds. -/
def loginRateLimit : Nat × Nat := (5, 300)

/-- Rate limit parameters of the register endpoint (auth.py line 122):
3 requests per 300 seconds. -/
def registerRateLimit : Nat × Nat := (3, 300)

/-- Rate limit parameters of the assessment retake endpoint
(assessments.py line 502): 2 requests per 3600 seconds. -/
def retakeRateLimit : Nat × Nat := (2, 3600)

/-- Counterexample to C4 as stated: the limiter uses fixed windows
aligned to multiples of the window length, not sliding ones, so a
non-localhost client gets 6 login requests processed within a 6-second
span (times 295..300 straddle the boundary between the fixed windows
0..300 and 300..600): more than 5 requests in a 300-second window. -/
theorem rate_limit_six_processed_in_one_window :
    (processSeq 5 300 "login" "1.2.3.4" none
        [295, 296, 297, 298, 299, 300] ⟨[]⟩).2 =
      [true, true, true, true, true, true] ∧
    (∀ t ∈ [(295 : ℤ), 296, 297, 298, 299, 300], 295 ≤ t ∧ t < 295 + 300) := by
  constructor
  · rfl
  · decide

/-- A decorated endpoint call: when the limiter rejects, the wrapped
endpoint body does not run and HTTP 429 is raised; otherwise the body
runs on the application state. -/
def rateLimitedCall {σ R : Type} (requests window : Nat) (fn ip : String)
    (uid : Option String) (t : ℤ) (st : RateState) (db : σ)
    (body : σ → σ × R) : RateState × σ × Except Nat R :=
  let r := rateLimitStep requests window fn ip uid t st
  if r.2 then
    ((r.1, (body db).1, .ok (body db).2))
  else
    (r.1, db, .error 429)

/-- A timestamp inside the fixed window starting at k*w lands in the
bucket int(t // w) * w = k*w. -/
theorem bucket_of_mem_window {w : Nat} (hw : 0 < w) (k : Nat) (t : ℤ)
    (h1 : (k : ℤ) * w ≤ t) (h2 : t < ((k : ℤ) + 1) * w) :
    t / (w : ℤ) * (w : ℤ) = (k : ℤ) * w := by
  have h2b : t - (k : ℤ) * w < (w : ℤ) := by nlinarith [h2]
  have ht : t = (t - (k : ℤ) * w) + (k : ℤ) * (w : ℤ) := by ring
  have hdiv : t / (w : ℤ) = k := by
    rw [ht, Int.add_mul_ediv_right _ _ (by omega : (w : ℤ) ≠ 0),
      Int.ediv_eq_zero_of_lt (by omega) h2b]
    ring
  rw [hdiv]

/-- One limiter step from a state whose bucket for the current fixed
window holds count c: reject when c has reached the limit, else
increment the bucket. -/
theorem rateLimitStep_bucket (req w : Nat) (fn ip : String) (uid : Option String)
    (hip : (ip == "127.0.0.1" || ip == "localhost" || ip == "::1") = false)
    (hw : 0 < w) (k c : Nat) (t : ℤ)
    (h1 : (k : ℤ) * w ≤ t) (h2 : t < ((k : ℤ) + 1) * w) :
    rateLimitStep req w fn ip uid t ⟨[(limiterKey fn ip uid, [((k : ℤ) * w, c)])]⟩ =
      (⟨[(limiterKey fn ip uid, [((k : ℤ) * w, if c < req then c + 1 else c)])]⟩,
        decide (c < req)) := by
  have hkeep : t - (k : ℤ) * w < (w : ℤ) := by nlinarith [h2]
  unfold rateLimitStep
  rw [hip]
  simp only [Bool.false_eq_true, if_false]
  by_cases hc : c < req
  · rw [if_pos hc]
    simp only [dictGet, dictSet, List.find?, beq_self_eq_true, Option.map_some,
      Option.getD_some, List.filter, decide_eq_true hkeep, List.map, List.sum_cons,
      List.sum_nil, Option.isSome_some, if_pos, if_neg (by omega : ¬ req ≤ c + 0),
      bucket_of_mem_window hw k t h1 h2, List.map_cons, List.map_nil,
      decide_eq_true hc]
    rfl
  · rw [if_neg hc]
    simp only [dictGet, dictSet, List.find?, beq_self_eq_true, Option.map_some,
      Option.getD_some, List.filter, decide_eq_true hkeep, List.map, List.sum_cons,
      List.sum_nil, Option.isSome_some, if_pos,
      if_pos (by omega : req ≤ c + 0), List.map_cons, List.map_nil,
      decide_eq_false hc]

/-- Running a request sequence that stays inside the fixed window
starting at k*w, from a state whose bucket already holds c requests:
request number i (0-based, counting from c) is processed exactly when
c + i is below the limit. -/
theorem processSeq_bucket (req w : Nat) (fn ip : String) (uid : Option String)
    (hip : (ip == "127.0.0.1" || ip == "localhost" || ip == "::1") = false)
    (hw : 0 < w) (k : Nat) (times : List ℤ)
    (hts : ∀ t ∈ times, (k : ℤ) * w ≤ t ∧ t < ((k : ℤ) + 1) * w) :
    ∀ c, (processSeq req w fn ip uid times
        ⟨[(limiterKey fn ip uid, [((k : ℤ) * w, c)])]⟩).2 =
      (List.range times.length).map (fun i => decide (c + i < req)) := by
  induction times with
  | nil => intro c; rfl
  | cons t ts ih =>
    intro c
    obtain ⟨h1, h2⟩ := hts t (List.mem_cons_self t ts)
    have hts2 : ∀ t2 ∈ ts, (k : ℤ) * w ≤ t2 ∧ t2 < ((k : ℤ) + 1) * w :=
      fun t2 ht2 => hts t2 (List.mem_cons_of_mem t ht2)
    unfold processSeq
    rw [rateLimitStep_bucket req w fn ip uid hip hw k c t h1 h2]
    by_cases hc : c < req
    · rw [if_pos hc]
      dsimp only
      rw [ih hts2 (c + 1), List.length_cons, List.range_succ_eq_map, List.map_cons,
        List.map_map]
      refine congrArg₂ _ (by simp [hc]) (List.map_congr_left fun i _ => ?_)
      exact decide_eq_decide.mpr (by omega)
    · rw [if_neg hc]
      dsimp only
      rw [ih hts2 c, List.length_cons, List.range_succ_eq_map, List.map_cons,
        List.map_map]
      refine congrArg₂ _ ?_ (List.map_congr_left fun i _ => ?_)
      · simp only [decide_eq_false hc]
        exact (decide_eq_false (by omega)).symm
      · exact decide_eq_decide.mpr (by omega)

/-- The number of elements of range n below the bound req is the smaller
of n and req. -/
theorem countP_range_lt (n req : Nat) :
    (List.range n).countP (fun i => decide (i < req)) =
      if n ≤ req then n else req := by
  induction n with
  | zero => simp
  | succ n ih =>
    rw [List.range_succ, List.countP_append, ih, List.countP_cons]
    simp only [List.countP_nil, decide_eq_true_eq, Nat.zero_add]
    split_ifs <;> omega

/-- First request of a fixed window arriving at an empty limiter state:
processed (when the limit is positive), creating the bucket k*w with
count 1. -/
theorem rateLimitStep_empty (req w : Nat) (fn ip : String) (uid : Option String)
    (hip : (ip == "127.0.0.1" || ip == "localhost" || ip == "::1") = false)
    (hreq : 0 < req) (hw : 0 < w) (k : Nat) (t : ℤ)
    (h1 : (k : ℤ) * w ≤ t) (h2 : t < ((k : ℤ) + 1) * w) :
    rateLimitStep req w fn ip uid t ⟨[]⟩ =
      (⟨[(limiterKey fn ip uid, [((k : ℤ) * w, 1)])]⟩, true) := by
  unfold rateLimitStep
  rw [hip]
  simp only [Bool.false_eq_true, if_false, dictGet, List.find?_nil,
    Option.map_none', Option.getD_none, List.filter_nil, List.map_nil,
    List.sum_nil]
  rw [if_neg (by omega : ¬ req ≤ 0), bucket_of_mem_window hw k t h1 h2]
  simp only [dictSet, List.find?_nil, Option.isSome_none, Bool.false_eq_true,
    if_false, List.nil_append]

/-- C4 amended: the imported limiter (the decorator of the package
app/middleware/__init__.py, which shadows the slowapi module
app/middleware.py) enforces per-endpoint in-memory limits keyed by
endpoint name and client address, counted in fixed windows aligned to
multiples of the window length.  Conjuncts: the decorator parameters of
the login, register and retake endpoints are 5/300s, 3/300s and 2/3600s;
localhost clients bypass the limiter entirely; a rejected request gets
HTTP 429 and its endpoint body never runs; and for any sequence of
requests of one client falling inside one fixed window, request i
(0-based) is processed exactly when i is below the limit, so at most the
limit many are processed in a fixed window and every further request in
that window is rejected.  (As the counterexample shows, the bound does
not hold for arbitrary sliding windows, and localhost traffic is
unlimited.) -/
theorem rate_limiter_fixed_window_limits
    (req w : Nat) (fn ip : String) (uid : Option String)
    (hreq : 0 < req) (hw : 0 < w) (k : Nat) (times : List ℤ)
    (hts : ∀ t ∈ times, (k : ℤ) * w ≤ t ∧ t < ((k : ℤ) + 1) * w)
    (hip : (ip == "127.0.0.1" || ip == "localhost" || ip == "::1") = false) :
    loginRateLimit = (5, 300)
    ∧ registerRateLimit = (3, 300)
    ∧ retakeRateLimit = (2, 3600)
    ∧ (∀ (st : RateState) (t2 : ℤ),
        rateLimitStep req w fn "127.0.0.1" uid t2 st = (st, true))
    ∧ (∀ (st : RateState) (t2 : ℤ) (db : Nat) (body : Nat → Nat × Nat),
        (rateLimitStep req w fn ip uid t2 st).2 = false →
        rateLimitedCall req w fn ip uid t2 st db body =
          ((rateLimitStep req w fn ip uid t2 st).1, db, .error 429))
    ∧ (processSeq req w fn ip uid times ⟨[]⟩).2 =
        (List.range times.length).map (fun i => decide (i < req))
    ∧ (processSeq req w fn ip uid times ⟨[]⟩).2.count true ≤ req := by
  have hchar : (processSeq req w fn ip uid times ⟨[]⟩).2 =
      (List.range times.length).map (fun i => decide (i < req)) := by
    cases times with
    | nil => rfl
    | cons t ts =>
      obtain ⟨h1, h2⟩ := hts t (List.mem_cons_self t ts)
      have hts2 : ∀ t2 ∈ ts, (k : ℤ) * w ≤ t2 ∧ t2 < ((k : ℤ) + 1) * w :=
        fun t2 ht2 => hts t2 (List.mem_cons_of_mem t ht2)
      unfold processSeq
      rw [rateLimitStep_empty req w fn ip uid hip hreq hw k t h1 h2]
      dsimp only
      rw [processSeq_bucket req w fn ip uid hip hw k ts hts2 1,
        List.length_cons, List.range_succ_eq_map, List.map_cons, List.map_map]
      refine congrArg₂ _ ?_ (List.map_congr_left fun i _ => ?_)
      · exact (decide_eq_true hreq).symm
      · exact decide_eq_decide.mpr (by omega)
  refine ⟨rfl, rfl, rfl, fun st t2 => rfl, fun st t2 db body h => ?_, hchar, ?_⟩
  · simp only [rateLimitedCall, h, Bool.false_eq_true, if_false]
  · rw [hchar]
    have hcount : ((List.range times.length).map
        (fun i => decide (i < req))).count true =
        (List.range times.length).countP (fun i => decide (i < req)) := by
      rw [List.count, List.countP_map]
      refine List.countP_congr fun i _ => ?_
      simp
    rw [hcount, countP_range_lt]
    split_ifs <;> omega

/-- Witness for the amended C4 theorem with the retake endpoint limits
(2 per 3600s), a non-localhost client, and three requests inside the
fixed window starting at 0: the first two are processed, the third is
rejected. -/
theorem rate_limiter_fixed_window_limits_witness :
    ((0 : Nat) < 2 ∧ (0 : Nat) < 3600
      ∧ (∀ t ∈ [(5 : ℤ), 10, 20],
          ((0 : ℕ) : ℤ) * ((3600 : ℕ) : ℤ) ≤ t ∧
            t < (((0 : ℕ) : ℤ) + 1) * ((3600 : ℕ) : ℤ))
      ∧ (("9.9.9.9" == "127.0.0.1" || "9.9.9.9" == "localhost" ||
          "9.9.9.9" == "::1") = false))
    ∧ (loginRateLimit = (5, 300)
      ∧ registerRateLimit = (3, 300)
      ∧ retakeRateLimit = (2, 3600)
      ∧ (∀ (st : RateState) (t2 : ℤ),
          rateLimitStep 2 3600 "retake_assessment" "127.0.0.1" none t2 st = (st, true))
      ∧ (∀ (st : RateState) (t2 : ℤ) (db : Nat) (body : Nat → Nat × Nat),
          (rateLimitStep 2 3600 "retake_assessment" "9.9.9.9" none t2 st).2 = false →
          rateLimitedCall 2 3600 "retake_assessment" "9.9.9.9" none t2 st db body =
            ((rateLimitStep 2 3600 "retake_assessment" "9.9.9.9" none t2 st).1,
              db, .error 429))
      ∧ (processSeq 2 3600 "retake_assessment" "9.9.9.9" none
            [(5 : ℤ), 10, 20] ⟨[]⟩).2 =
          (List.range ([(5 : ℤ), 10, 20]).length).map (fun i => decide (i < 2))
      ∧ (processSeq 2 3600 "retake_assessment" "9.9.9.9" none
            [(5 : ℤ), 10, 20] ⟨[]⟩).2.count true ≤ 2) := by
  refine ⟨⟨by decide, by decide, by decide, by decide⟩, ?_⟩
  exact rate_limiter_fixed_window_limits 2 3600 "retake_assessment" "9.9.9.9" none
    (by decide) (by decide) 0 [5, 10, 20] (by decide) (by decide)

/-! ## C5: get_assessment_analytics (app/routers/assessments.py lines
550-603), the aggregation over the student's assessment analytics rows. -/

/-- Row of the student_assessments table, fields used by the endpoint. -/
structure StudentAssessmentRow where
  id : Nat
  student_id : Nat
  is_completed : Bool
  deriving Repr, DecidableEq

/-- Row of the assessment_analytics table, fields used by the endpoint.
total_time_seconds is a nullable Integer column. -/
structure AssessmentAnalyticsRow where
  id : Nat
  assessment_id : Nat
  total_time_seconds : Option Int
  deriving Repr, DecidableEq

/-- Round half to even of a rational to an integer, the rounding Python's
round applies (modelled at exact rational precision rather than binary
floating point). -/
def roundHalfEven (q : ℚ) : ℤ :=
  let f := ⌊q⌋
  let r := q - f
  if r < 1/2 then f
  else if 1/2 < r then f + 1
  else if f % 2 = 0 then f else f + 1

/-- Python round(x, 2): two decimal places. -/
def round2 (q : ℚ) : ℚ := (roundHalfEven (q * 100) : ℚ) / 100

/-- The query of lines 576-579: analytics rows joined (on the
assessment_id foreign key) to the student's completed assessments. -/
def joinedAnalytics (sid : Nat) (assessments : List StudentAssessmentRow)
    (analytics : List AssessmentAnalyticsRow) : List AssessmentAnalyticsRow :=
  analytics.filter (fun a => assessments.any (fun s =>
    (s.student_id == sid && s.is_completed) && a.assessment_id == s.id))

/-- Python truthiness of the nullable integer column (None and 0 are
falsy). -/
def truthyTime : Option Int → Bool
  | none => false
  | some t => t != 0

/-- Embedding of the aggregation of lines 584-592: total_assessments is
the number of joined rows; avg_time sums the truthy total_time_seconds
and divides by the row count (0 for no rows); the reported
average_completion_time_minutes is round(avg_time / 60, 2) when avg_time
is truthy and 0 otherwise.  Returns (total_assessments,
average_completion_time_minutes). -/
def assessmentAnalyticsSummary (sid : Nat)
    (assessments : List StudentAssessmentRow)
    (analytics : List AssessmentAnalyticsRow) : Nat × ℚ :=
  let rows := joinedAnalytics sid assessments analytics
  let total := rows.length
  let timeSum : ℚ := ((rows.filter (fun a => truthyTime a.total_time_seconds)).map
    (fun a => ((a.total_time_seconds.getD 0 : ℤ) : ℚ))).sum
  let avg_time : ℚ := if 0 < total then timeSum / total else 0
  (total, if avg_time = 0 then 0 else round2 (avg_time / 60))

/-- countP as a sum of indicator values. -/
theorem countP_eq_sum_map {α : Type} (p : α → Bool) (l : List α) :
    l.countP p = (l.map (fun a => if p a then 1 else 0)).sum := by
  induction l with
  | nil => rfl
  | cons a t ih =>
    rw [List.countP_cons, List.map_cons, List.sum_cons, ih]
    omega

/-- Sums of pointwise sums split. -/
theorem sum_map_add {α : Type} (f g : α → ℕ) (l : List α) :
    (l.map (fun x => f x + g x)).sum = (l.map f).sum + (l.map g).sum := by
  induction l with
  | nil => rfl
  | cons a t ih =>
    simp only [List.map_cons, List.sum_cons, ih]
    omega

/-- Double counting: summing per-left match counts equals summing
per-right match counts. -/
theorem sum_countP_swap {α β : Type} (r : α → β → Bool) (l1 : List α)
    (l2 : List β) :
    (l1.map (fun a => l2.countP (fun b => r a b))).sum =
      (l2.map (fun b => l1.countP (fun a => r a b))).sum := by
  induction l1 with
  | nil => simp [List.countP_nil]
  | cons a t ih =>
    rw [List.map_cons, List.sum_cons, ih, countP_eq_sum_map, ← sum_map_add]
    refine (congrArg _ (List.map_congr_left fun b _ => ?_)).symm
    rw [List.countP_cons]
    omega

/-- With duplicate-free ids, the number of rows with a given id is the
indicator of a row with that id existing. -/
theorem countP_id_eq_indicator (x : Nat) (l : List StudentAssessmentRow)
    (hn : (l.map (fun s => s.id)).Nodup) :
    l.countP (fun s => x == s.id) = if l.any (fun s => x == s.id) then 1 else 0 := by
  induction l with
  | nil => rfl
  | cons s t ih =>
    rw [List.map_cons, List.nodup_cons] at hn
    rw [List.countP_cons, List.any_cons, ih hn.2]
    cases hx : (x == s.id) with
    | false => simp
    | true =>
      have hxid : x = s.id := by simpa using hx
      have hnone : t.any (fun s2 => x == s2.id) = false := by
        rw [List.any_eq_false]
        intro s2 hs2
        simp only [beq_iff_eq]
        intro heq
        exact hn.1 (hxid ▸ heq ▸ List.mem_map_of_mem (fun s3 => s3.id) hs2)
      simp [hnone]

/-- Conjunction inside any splits into a filter. -/
theorem any_filter_split {α : Type} (P Q : α → Bool) (l : List α) :
    l.any (fun s => Q s && P s) = (l.filter Q).any P := by
  induction l with
  | nil => rfl
  | cons s t ih =>
    rw [List.any_cons, List.filter_cons]
    cases hq : Q s
    · rw [if_neg (by decide)]
      simp only [Bool.false_and, Bool.false_or]
      exact ih
    · rw [if_pos rfl, List.any_cons]
      simp only [Bool.true_and]
      rw [ih]

/-- Dropping list elements on which the summand vanishes keeps the sum. -/
theorem sum_map_filter_eq {α : Type} (f : α → ℚ) (p : α → Bool) (l : List α)
    (h : ∀ a ∈ l, p a = false → f a = 0) :
    ((l.filter p).map f).sum = (l.map f).sum := by
  induction l with
  | nil => rfl
  | cons a t ih =>
    have ht : ∀ b ∈ t, p b = false → f b = 0 :=
      fun b hb => h b (List.mem_cons_of_mem a hb)
    rw [List.filter_cons, List.map_cons, List.sum_cons]
    cases hp : p a
    · rw [if_neg (by decide), ih ht, h a (List.mem_cons_self a t) hp]
      ring
    · rw [if_pos rfl, List.map_cons, List.sum_cons, ih ht]

/-- Python round of 0 is 0. -/
theorem round2_zero : round2 0 = 0 := by
  norm_num [round2, roundHalfEven]

/-- The join returns one row per completed assessment of the student,
given unique assessment ids and exactly one analytics row per completed
assessment. -/
theorem joined_length_eq_completed (sid : Nat)
    (assessments : List StudentAssessmentRow)
    (analytics : List AssessmentAnalyticsRow)
    (hids : (assessments.map (fun s => s.id)).Nodup)
    (hone : ∀ s ∈ assessments, s.student_id = sid → s.is_completed = true →
      (analytics.filter (fun a => a.assessment_id == s.id)).length = 1) :
    (joinedAnalytics sid assessments analytics).length =
      (assessments.filter (fun s => s.student_id == sid && s.is_completed)).length := by
  classical
  set Q : StudentAssessmentRow → Bool :=
    fun s => s.student_id == sid && s.is_completed with hQ
  have hnodup2 : ((assessments.filter Q).map (fun s => s.id)).Nodup :=
    ((List.filter_sublist assessments).map (fun s => s.id)).nodup hids
  calc (joinedAnalytics sid assessments analytics).length
      = analytics.countP (fun a => assessments.any (fun s =>
          Q s && (a.assessment_id == s.id))) :=
        (List.countP_eq_length_filter _ _).symm
    _ = analytics.countP (fun a =>
          (assessments.filter Q).any (fun s => a.assessment_id == s.id)) := by
        refine List.countP_congr fun a _ => ?_
        rw [any_filter_split]
    _ = (analytics.map (fun a => (assessments.filter Q).countP
          (fun s => a.assessment_id == s.id))).sum := by
        rw [countP_eq_sum_map]
        refine congrArg _ (List.map_congr_left fun a _ => ?_)
        rw [countP_id_eq_indicator _ _ hnodup2]
    _ = ((assessments.filter Q).map (fun s => analytics.countP
          (fun a => a.assessment_id == s.id))).sum := by
        exact sum_countP_swap (fun a s => a.assessment_id == s.id) analytics
          (assessments.filter Q)
    _ = ((assessments.filter Q).map (fun _ => 1)).sum := by
        refine congrArg _ (List.map_congr_left fun s hs => ?_)
        obtain ⟨hmem, hq⟩ := List.mem_filter.mp hs
        rw [hQ] at hq
        simp only [Bool.and_eq_true, beq_iff_eq] at hq
        rw [List.countP_eq_length_filter, hone s hmem hq.1 hq.2]
    _ = (assessments.filter Q).length := by simp

/-- C5: the per-student assessment analytics are plain aggregates:
total_assessments is the number of completed assessments of the student,
and average_completion_time_minutes is the arithmetic mean of their
total_time_seconds divided by 60, rounded to two decimal places (0 when
there are no completed assessments; the code also reports 0 when the
mean is 0, which equals the rounded mean).  Hypotheses: assessment ids
are unique, each completed assessment has exactly one analytics row
(created when the assessment starts), and the joined rows carry a
non-null total_time_seconds (set when the assessment completes). -/
theorem assessment_analytics_aggregates (sid : Nat)
    (assessments : List StudentAssessmentRow)
    (analytics : List AssessmentAnalyticsRow)
    (hids : (assessments.map (fun s => s.id)).Nodup)
    (hone : ∀ s ∈ assessments, s.student_id = sid → s.is_completed = true →
      (analytics.filter (fun a => a.assessment_id == s.id)).length = 1)
    (htime : ∀ a ∈ joinedAnalytics sid assessments analytics,
      a.total_time_seconds.isSome = true) :
    (assessmentAnalyticsSummary sid assessments analytics).1 =
      (assessments.filter (fun s => s.student_id == sid && s.is_completed)).length
    ∧ (assessmentAnalyticsSummary sid assessments analytics).2 =
      (if (joinedAnalytics sid assessments analytics).length = 0 then 0
       else round2 ((((joinedAnalytics sid assessments analytics).map
          (fun a => ((a.total_time_seconds.getD 0 : ℤ) : ℚ))).sum /
            ((joinedAnalytics sid assessments analytics).length : ℚ)) / 60)) := by
  constructor
  · exact joined_length_eq_completed sid assessments analytics hids hone
  · unfold assessmentAnalyticsSummary
    dsimp only
    set J := joinedAnalytics sid assessments analytics with hJ
    have hsum : ((J.filter (fun a => truthyTime a.total_time_seconds)).map
        (fun a => ((a.total_time_seconds.getD 0 : ℤ) : ℚ))).sum =
        (J.map (fun a => ((a.total_time_seconds.getD 0 : ℤ) : ℚ))).sum := by
      refine sum_map_filter_eq _ _ _ fun a ha hfalse => ?_
      have hsome := htime a ha
      cases hts : a.total_time_seconds with
      | none => rw [hts] at hsome; simp at hsome
      | some t =>
        rw [hts] at hfalse
        simp only [truthyTime, bne_eq_false_iff_eq] at hfalse
        simp only [Option.getD_some, hfalse, Int.cast_zero]
    rw [hsum]
    by_cases hn : J.length = 0
    · have h0 : ¬ (0 < J.length) := by omega
      rw [if_neg h0, if_pos hn]
      norm_num
    · have hpos : 0 < J.length := Nat.pos_of_ne_zero hn
      rw [if_pos hpos, if_neg hn]
      by_cases havg : (J.map (fun a => ((a.total_time_seconds.getD 0 : ℤ) : ℚ))).sum /
          (J.length : ℚ) = 0
      · rw [if_pos havg, havg]
        norm_num [round2_zero]
      · rw [if_neg havg]

/-- Witness for C5: student 7 has one completed assessment (id 1, with
an analytics row of 90 seconds), one incomplete assessment, and another
student's assessment is ignored; the summary reports 1 assessment and a
mean of 1.5 minutes. -/
theorem assessment_analytics_aggregates_witness :
    ((([⟨1, 7, true⟩, ⟨2, 7, false⟩, ⟨3, 8, true⟩] :
        List StudentAssessmentRow).map (fun s => s.id)).Nodup
      ∧ (∀ s ∈ ([⟨1, 7, true⟩, ⟨2, 7, false⟩, ⟨3, 8, true⟩] :
          List StudentAssessmentRow), s.student_id = 7 → s.is_completed = true →
          (([⟨10, 1, some 90⟩, ⟨11, 2, some 50⟩, ⟨12, 3, none⟩] :
            List AssessmentAnalyticsRow).filter
              (fun a => a.assessment_id == s.id)).length = 1)
      ∧ (∀ a ∈ joinedAnalytics 7
          [⟨1, 7, true⟩, ⟨2, 7, false⟩, ⟨3, 8, true⟩]
          [⟨10, 1, some 90⟩, ⟨11, 2, some 50⟩, ⟨12, 3, none⟩],
          a.total_time_seconds.isSome = true))
    ∧ ((assessmentAnalyticsSummary 7
        [⟨1, 7, true⟩, ⟨2, 7, false⟩, ⟨3, 8, true⟩]
        [⟨10, 1, some 90⟩, ⟨11, 2, some 50⟩, ⟨12, 3, none⟩]).1 =
      (([⟨1, 7, true⟩, ⟨2, 7, false⟩, ⟨3, 8, true⟩] :
        List StudentAssessmentRow).filter
          (fun s => s.student_id == 7 && s.is_completed)).length
      ∧ (assessmentAnalyticsSummary 7
          [⟨1, 7, true⟩, ⟨2, 7, false⟩, ⟨3, 8, true⟩]
          [⟨10, 1, some 90⟩, ⟨11, 2, some 50⟩, ⟨12, 3, none⟩]).2 =
        (if (joinedAnalytics 7 [⟨1, 7, true⟩, ⟨2, 7, false⟩, ⟨3, 8, true⟩]
            [⟨10, 1, some 90⟩, ⟨11, 2, some 50⟩, ⟨12, 3, none⟩]).length = 0 then 0
         else round2 ((((joinedAnalytics 7
            [⟨1, 7, true⟩, ⟨2, 7, false⟩, ⟨3, 8, true⟩]
            [⟨10, 1, some 90⟩, ⟨11, 2, some 50⟩, ⟨12, 3, none⟩]).map
              (fun a => ((a.total_time_seconds.getD 0 : ℤ) : ℚ))).sum /
            ((joinedAnalytics 7 [⟨1, 7, true⟩, ⟨2, 7, false⟩, ⟨3, 8, true⟩]
              [⟨10, 1, some 90⟩, ⟨11, 2, some 50⟩, ⟨12, 3, none⟩]).length : ℚ)) /
            60))) := by
  refine ⟨⟨by decide, by decide, by decide⟩, ?_⟩
  exact assessment_analytics_aggregates 7
    [⟨1, 7, true⟩, ⟨2, 7, false⟩, ⟨3, 8, true⟩]
    [⟨10, 1, some 90⟩, ⟨11, 2, some 50⟩, ⟨12, 3, none⟩]
    (by decide) (by decide) (by decide)

/-! ## C6: LearningService._update_path_progress (lines 391-443), called
by update_module_progress (line 270) when a module is first completed. -/

/-- Foreign keys declared in app/models/user.py, as (referencing table,
referenced table) pairs.  learning_modules references learning_paths;
student_learning_paths references students and learning_paths; neither
references the other, and no relationship() is declared between them. -/
def tableForeignKeys : List (String × String) :=
  [("students", "users"),
   ("student_assessments", "students"),
   ("student_assessments", "learning_paths"),
   ("learning_modules", "learning_paths"),
   ("student_learning_paths", "students"),
   ("student_learning_paths", "learning_paths"),
   ("student_module_progress", "students"),
   ("student_module_progress", "learning_modules"),
   ("student_module_progress", "student_learning_paths"),
   ("student_achievements", "students"),
   ("student_achievements", "achievement_types")]

/-- Modelled from the spec and SQLAlchemy's documented contract (the ORM
is outside this repository): Select.join without an ON clause infers the
join condition from a foreign key between the two tables, in either
direction; with none (and no relationship declared between the mapped
classes) executing the statement raises
NoForeignKeysError / InvalidRequestError. -/
def hasJoinCondition (t1 t2 : String) : Bool :=
  tableForeignKeys.contains (t1, t2) || tableForeignKeys.contains (t2, t1)

/-- Embedding of LearningService._update_path_progress.  The first query
(lines 400-407) joins LearningModule to StudentLearningPath with no ON
clause; when the join condition can be inferred the function counts
active modules of the path and the student's completed progress rows on
the student path, stores int((completed / total) * 100) (integer
truncation; 0 for an empty path), coalesces started_at with now, and
sets completed_at when the percentage reaches 100. -/
def updatePathProgress (sid spid now : Nat) (db : LearnDb) :
    Except String LearnDb :=
  if hasJoinCondition "learning_modules" "student_learning_paths" then
    let total_modules := (db.modules.filter (fun m =>
      m.is_active && db.studentPaths.any (fun sp =>
        sp.id == spid && sp.path_id == m.path_id))).length
    let completed_modules := (db.progresses.filter (fun p =>
      p.student_id == sid && p.student_path_id == spid &&
        p.status == "completed")).length
    let pct : Int :=
      if 0 < total_modules then (completed_modules * 100) / total_modules else 0
    let db2 : LearnDb := { db with studentPaths := db.studentPaths.map (fun sp =>
      if sp.id == spid then
        { sp with progress_percentage := pct,
                  started_at := some (sp.started_at.getD now) }
      else sp) }
    if 100 ≤ pct then
      .ok { db2 with studentPaths := db2.studentPaths.map (fun sp =>
        if sp.id == spid then { sp with completed_at := some now } else sp) }
    else
      .ok db2
  else
    .error "NoForeignKeysError: no join condition between learning_modules and student_learning_paths"

/-- Auxiliary fact shared by several developments: the count query of
_update_path_progress cannot be executed, because no join condition
exists between its two tables. -/
theorem updatePathProgress_raises_aux (sid spid now : Nat) (db : LearnDb) :
    updatePathProgress sid spid now db =
      .error "NoForeignKeysError: no join condition between learning_modules and student_learning_paths" := by
  unfold updatePathProgress
  rw [if_neg]
  intro h
  exact absurd h (by decide)

/-- C6: the claim describes the intended recomputation, but the code's
count query joins learning_modules to student_learning_paths, two tables
with no foreign key or relationship between them, so SQLAlchemy cannot
infer the join condition and every call of _update_path_progress raises
instead of updating the path record: completing a module always fails
and nothing is committed. -/
theorem update_path_progress_always_raises (sid spid now : Nat) (db : LearnDb) :
    updatePathProgress sid spid now db =
      .error "NoForeignKeysError: no join condition between learning_modules and student_learning_paths" :=
  updatePathProgress_raises_aux sid spid now db

/-! ## C7: LearningService._check_achievements (lines 445-500) and
_award_achievement_if_new (lines 502-550). -/

/-- Query predicate of lines 511-513: achievement type with the given
name. -/
def achievementTypeByName (name : String) (t : AchievementType) : Bool :=
  t.name == name

/-- Query predicate of lines 521-526: the student already holds the
achievement type. -/
def studentHasAchievement (sid tid : Nat) (a : StudentAchievement) : Bool :=
  a.student_id == sid && a.achievement_type_id == tid

/-- Embedding of _award_achievement_if_new: no-op when the achievement
type does not exist or the student already holds it, otherwise insert
one StudentAchievement row. -/
def awardAchievementIfNew (sid : Nat) (name : String) (now : Nat)
    (db : LearnDb) : Except String LearnDb :=
  match scalarOneOrNone (db.achievementTypes.filter (achievementTypeByName name)) with
  | .error e => .error e
  | .ok none => .ok db
  | .ok (some t) =>
    match scalarOneOrNone (db.studentAchievements.filter
        (studentHasAchievement sid t.id)) with
    | .error e => .error e
    | .ok (some _) => .ok db
    | .ok none =>
      .ok { db with studentAchievements :=
        db.studentAchievements ++ [⟨sid, t.id, now⟩] }

/-- Count of the student's completed module progress rows (lines
449-456). -/
def completedCount (sid : Nat) (db : LearnDb) : Nat :=
  (db.progresses.filter (fun p =>
    p.student_id == sid && p.status == "completed")).length

/-- Count of the student's module progress rows completed since the
start of the current UTC day (lines 467-476); a NULL completed_at never
satisfies the SQL comparison. -/
def completedTodayCount (sid todayStart : Nat) (db : LearnDb) : Nat :=
  (db.progresses.filter (fun p =>
    p.student_id == sid && p.status == "completed" &&
      (match p.completed_at with
       | some c => decide (todayStart ≤ c)
       | none => false))).length

/-- Count of the student's learning paths with completed_at set (lines
486-493). -/
def completedPathsCount (sid : Nat) (db : LearnDb) : Nat :=
  (db.studentPaths.filter (fun sp =>
    sp.student_id == sid && sp.completed_at.isSome)).length

/-- Embedding of _check_achievements: award First Steps at one completed
module, Quick Learner at three completions since the UTC day started
(todayStart is the datetime computed at line 467), Path Completer at one
completed learning path. -/
def checkAchievements (sid now todayStart : Nat) (db : LearnDb) :
    Except String LearnDb :=
  match (if 1 ≤ completedCount sid db then
      awardAchievementIfNew sid "First Steps" now db else .ok db) with
  | .error e => .error e
  | .ok db1 =>
    match (if 3 ≤ completedTodayCount sid todayStart db1 then
        awardAchievementIfNew sid "Quick Learner" now db1 else .ok db1) with
    | .error e => .error e
    | .ok db2 =>
      if 1 ≤ completedPathsCount sid db2 then
        awardAchievementIfNew sid "Path Completer" now db2
      else .ok db2

/-- Number of StudentAchievement rows the student holds of one type. -/
def achCount (sid tid : Nat) (db : LearnDb) : Nat :=
  db.studentAchievements.countP (studentHasAchievement sid tid)

/-- Full effect of _award_achievement_if_new on the database: the other
tables are untouched, and the per-(student, type) achievement counts are
unchanged except that the addressed type's count rises from 0 to 1 when
the type exists and the student does not hold it yet. -/
theorem award_count (sid : Nat) (name : String) (now : Nat) (db : LearnDb)
    (hname : (db.achievementTypes.filter (achievementTypeByName name)).length ≤ 1)
    (hheld : ∀ tid, (db.studentAchievements.filter
      (studentHasAchievement sid tid)).length ≤ 1) :
    ∃ db2, awardAchievementIfNew sid name now db = .ok db2 ∧
      db2.progresses = db.progresses ∧ db2.studentPaths = db.studentPaths ∧
      db2.achievementTypes = db.achievementTypes ∧
      ∀ s t, achCount s t db2 =
        (match db.achievementTypes.find? (achievementTypeByName name) with
         | none => achCount s t db
         | some ty =>
           if achCount sid ty.id db = 0 ∧ s = sid ∧ t = ty.id then
             achCount s t db + 1
           else achCount s t db) := by
  unfold awardAchievementIfNew
  rw [scalarOneOrNone_filter _ _ hname]
  cases hT : db.achievementTypes.find? (achievementTypeByName name) with
  | none => exact ⟨db, rfl, rfl, rfl, rfl, fun s t => rfl⟩
  | some ty =>
    dsimp only
    rw [scalarOneOrNone_filter _ _ (hheld ty.id)]
    cases hA : db.studentAchievements.find? (studentHasAchievement sid ty.id) with
    | some a =>
      refine ⟨db, rfl, rfl, rfl, rfl, fun s t => ?_⟩
      have hpos : 0 < achCount sid ty.id db := by
        rw [achCount, List.countP_eq_length_filter]
        have : a ∈ db.studentAchievements.filter (studentHasAchievement sid ty.id) :=
          List.mem_filter.mpr ⟨List.mem_of_find?_eq_some hA, List.find?_some hA⟩
        exact List.length_pos_of_mem this
      rw [if_neg (by omega)]
    | none =>
      refine ⟨{ db with studentAchievements :=
          db.studentAchievements ++ [(⟨sid, ty.id, now⟩ : StudentAchievement)] },
        rfl, rfl, rfl, rfl, fun s t => ?_⟩
      have hzero : achCount sid ty.id db = 0 := by
        rw [achCount, List.countP_eq_zero]
        exact fun a ha => by simpa using List.find?_eq_none.mp hA a ha
      show (db.studentAchievements ++
          [(⟨sid, ty.id, now⟩ : StudentAchievement)]).countP
            (studentHasAchievement s t) = _
      rw [List.countP_append, List.countP_cons, List.countP_nil]
      by_cases hst : s = sid ∧ t = ty.id
      · have hcond : achCount sid ty.id db = 0 ∧ s = sid ∧ t = ty.id :=
          ⟨hzero, hst.1, hst.2⟩
        rw [if_pos hcond]
        obtain ⟨h1, h2⟩ := hst
        subst h1; subst h2
        simp [studentHasAchievement, achCount]
      · have hrow : studentHasAchievement s t
            (⟨sid, ty.id, now⟩ : StudentAchievement) = false := by
          rcases not_and_or.mp hst with h | h
          · have hb : (sid == s) = false :=
              beq_eq_false_iff_ne.mpr fun he => h he.symm
            simp [studentHasAchievement, hb]
          · have hb : (ty.id == t) = false :=
              beq_eq_false_iff_ne.mpr fun he => h he.symm
            simp [studentHasAchievement, hb]
        have hncond : ¬(achCount sid ty.id db = 0 ∧ s = sid ∧ t = ty.id) :=
          fun hcon => hst ⟨hcon.2.1, hcon.2.2⟩
        rw [if_neg hncond, hrow]
        simp [achCount]

/-- Effect of one conditional award step of _check_achievements. -/
theorem guarded_award (sid now : Nat) (nm : String) (cond : Prop)
    [Decidable cond] (db : LearnDb)
    (hname : (db.achievementTypes.filter (achievementTypeByName nm)).length ≤ 1)
    (hheld : ∀ tid, (db.studentAchievements.filter
      (studentHasAchievement sid tid)).length ≤ 1) :
    ∃ db2, (if cond then awardAchievementIfNew sid nm now db else .ok db) = .ok db2 ∧
      db2.progresses = db.progresses ∧ db2.studentPaths = db.studentPaths ∧
      db2.achievementTypes = db.achievementTypes ∧
      (¬ cond → db2 = db) ∧
      (∀ s t, achCount s t db ≤ achCount s t db2) ∧
      (∀ s t, (∀ ty, db.achievementTypes.find? (achievementTypeByName nm) = some ty →
          t ≠ ty.id) → achCount s t db2 = achCount s t db) ∧
      (∀ ty, db.achievementTypes.find? (achievementTypeByName nm) = some ty → cond →
        0 < achCount sid ty.id db2) ∧
      ((∀ s t, achCount s t db ≤ 1) → ∀ s t, achCount s t db2 ≤ 1) := by
  by_cases hc : cond
  · obtain ⟨db2, haw, hp, hsp, hat, hcnt⟩ := award_count sid nm now db hname hheld
    refine ⟨db2, by rw [if_pos hc]; exact haw, hp, hsp, hat,
      fun hn => absurd hc hn, ?_, ?_, ?_, ?_⟩
    · intro s t
      rw [hcnt s t]
      cases hT : db.achievementTypes.find? (achievementTypeByName nm) with
      | none => exact le_refl _
      | some ty =>
        show achCount s t db ≤
          if achCount sid ty.id db = 0 ∧ s = sid ∧ t = ty.id then
            achCount s t db + 1 else achCount s t db
        split_ifs <;> omega
    · intro s t hne
      rw [hcnt s t]
      cases hT : db.achievementTypes.find? (achievementTypeByName nm) with
      | none => rfl
      | some ty =>
        show (if achCount sid ty.id db = 0 ∧ s = sid ∧ t = ty.id then
            achCount s t db + 1 else achCount s t db) = achCount s t db
        exact if_neg fun hcon => (hne ty hT) hcon.2.2
    · intro ty hT _
      rw [hcnt sid ty.id, hT]
      show 0 < if achCount sid ty.id db = 0 ∧ sid = sid ∧ ty.id = ty.id then
          achCount sid ty.id db + 1 else achCount sid ty.id db
      split_ifs <;> omega
    · intro hinv s t
      rw [hcnt s t]
      cases hT : db.achievementTypes.find? (achievementTypeByName nm) with
      | none => exact hinv s t
      | some ty =>
        show (if achCount sid ty.id db = 0 ∧ s = sid ∧ t = ty.id then
            achCount s t db + 1 else achCount s t db) ≤ 1
        split_ifs with h
        · obtain ⟨h0, h1, h2⟩ := h
          subst h1; subst h2
          omega
        · exact hinv s t
  · exact ⟨db, by rw [if_neg hc], rfl, rfl, rfl, fun _ => rfl,
      fun s t => le_refl _, fun s t _ => rfl,
      fun ty _ hcond => absurd hcond hc, fun hinv => hinv⟩

/-- Distinct achievement names name rows with distinct ids, given the
primary key uniqueness of the achievement_types table. -/
theorem type_ids_distinct (db : LearnDb)
    (hid : (db.achievementTypes.map (fun t => t.id)).Nodup)
    (n1 n2 : String) (t1 t2 : AchievementType)
    (h1 : db.achievementTypes.find? (achievementTypeByName n1) = some t1)
    (h2 : db.achievementTypes.find? (achievementTypeByName n2) = some t2)
    (hne : n1 ≠ n2) : t1.id ≠ t2.id := by
  have e1 : t1.name = n1 := by
    simpa [achievementTypeByName] using List.find?_some h1
  have e2 : t2.name = n2 := by
    simpa [achievementTypeByName] using List.find?_some h2
  intro hq
  have heq : t1 = t2 :=
    List.inj_on_of_nodup_map hid (List.mem_of_find?_eq_some h1)
      (List.mem_of_find?_eq_some h2) hq
  exact hne (e1 ▸ e2 ▸ congrArg (fun t => t.name) heq)

/-- C7: achievement badges are awarded at most once per type per
student: _award_achievement_if_new leaves the database unchanged when
the achievement type does not exist or the student already holds it;
running _check_achievements preserves the at-most-one-row invariant; and
after a run the student holds First Steps, Quick Learner and Path
Completer exactly when they already held the badge or had completed at
least 1 module, at least 3 modules since the current UTC day started
(todayStart), or at least 1 full learning path, respectively.
Hypotheses: the unique-name constraint on achievement_types, the
at-most-one-achievement-row invariant, and primary key uniqueness of
achievement type ids. -/
theorem achievements_once_and_grant_conditions
    (sid now todayStart : Nat) (db : LearnDb)
    (hname : ∀ n, (db.achievementTypes.filter (achievementTypeByName n)).length ≤ 1)
    (hheld : ∀ s t, (db.studentAchievements.filter
      (studentHasAchievement s t)).length ≤ 1)
    (hid : (db.achievementTypes.map (fun t => t.id)).Nodup) :
    (∀ n, db.achievementTypes.find? (achievementTypeByName n) = none →
      awardAchievementIfNew sid n now db = .ok db)
    ∧ (∀ n t, db.achievementTypes.find? (achievementTypeByName n) = some t →
        0 < achCount sid t.id db →
        awardAchievementIfNew sid n now db = .ok db)
    ∧ ∃ db3, checkAchievements sid now todayStart db = .ok db3 ∧
        (∀ s t, achCount s t db3 ≤ 1) ∧
        (∀ t, db.achievementTypes.find? (achievementTypeByName "First Steps") = some t →
          (0 < achCount sid t.id db3 ↔
            0 < achCount sid t.id db ∨ 1 ≤ completedCount sid db)) ∧
        (∀ t, db.achievementTypes.find? (achievementTypeByName "Quick Learner") = some t →
          (0 < achCount sid t.id db3 ↔
            0 < achCount sid t.id db ∨ 3 ≤ completedTodayCount sid todayStart db)) ∧
        (∀ t, db.achievementTypes.find? (achievementTypeByName "Path Completer") = some t →
          (0 < achCount sid t.id db3 ↔
            0 < achCount sid t.id db ∨ 1 ≤ completedPathsCount sid db)) := by
  refine ⟨?_, ?_, ?_⟩
  · intro n h
    unfold awardAchievementIfNew
    rw [scalarOneOrNone_filter _ _ (hname n), h]
  · intro n t hT hpos
    unfold awardAchievementIfNew
    rw [scalarOneOrNone_filter _ _ (hname n), hT]
    dsimp only
    rw [scalarOneOrNone_filter _ _ (hheld sid t.id)]
    have hsome : (db.studentAchievements.find? (studentHasAchievement sid t.id)).isSome := by
      rw [List.find?_isSome]
      rw [achCount] at hpos
      exact List.countP_pos_iff.mp hpos
    obtain ⟨a, ha⟩ := Option.isSome_iff_exists.mp hsome
    rw [ha]
  · have hinv0 : ∀ s t, achCount s t db ≤ 1 := fun s t => by
      rw [achCount, List.countP_eq_length_filter]; exact hheld s t
    obtain ⟨db1, e1, p1, sp1, at1, nc1, mono1, oth1, gr1, inv1⟩ :=
      guarded_award sid now "First Steps" (1 ≤ completedCount sid db) db
        (hname _) (fun tid => hheld sid tid)
    have hinv1 := inv1 hinv0
    have hname1 : ∀ n, (db1.achievementTypes.filter
        (achievementTypeByName n)).length ≤ 1 := by
      intro n; rw [at1]; exact hname n
    have hheld1 : ∀ tid, (db1.studentAchievements.filter
        (studentHasAchievement sid tid)).length ≤ 1 := fun tid => by
      rw [← List.countP_eq_length_filter]; exact hinv1 sid tid
    obtain ⟨db2, e2, p2, sp2, at2, nc2, mono2, oth2, gr2, inv2⟩ :=
      guarded_award sid now "Quick Learner"
        (3 ≤ completedTodayCount sid todayStart db1) db1 (hname1 _) hheld1
    have hinv2 := inv2 hinv1
    have hname2 : ∀ n, (db2.achievementTypes.filter
        (achievementTypeByName n)).length ≤ 1 := by
      intro n; rw [at2]; exact hname1 n
    have hheld2 : ∀ tid, (db2.studentAchievements.filter
        (studentHasAchievement sid tid)).length ≤ 1 := fun tid => by
      rw [← List.countP_eq_length_filter]; exact hinv2 sid tid
    obtain ⟨db3, e3, p3, sp3, at3, nc3, mono3, oth3, gr3, inv3⟩ :=
      guarded_award sid now "Path Completer"
        (1 ≤ completedPathsCount sid db2) db2 (hname2 _) hheld2
    have hinv3 := inv3 hinv2
    have hfind1 : ∀ n, db1.achievementTypes.find? (achievementTypeByName n) =
        db.achievementTypes.find? (achievementTypeByName n) := fun n => by rw [at1]
    have hfind2 : ∀ n, db2.achievementTypes.find? (achievementTypeByName n) =
        db.achievementTypes.find? (achievementTypeByName n) := fun n => by rw [at2, at1]
    have hccount1 : completedTodayCount sid todayStart db1 =
        completedTodayCount sid todayStart db := by
      unfold completedTodayCount; rw [p1]
    have hpaths2 : completedPathsCount sid db2 = completedPathsCount sid db := by
      unfold completedPathsCount; rw [sp2, sp1]
    have hrun : checkAchievements sid now todayStart db = .ok db3 := by
      unfold checkAchievements
      rw [e1]
      dsimp only
      rw [e2]
      dsimp only
      exact e3
    refine ⟨db3, hrun, hinv3, ?_, ?_, ?_⟩
    · intro t hT
      constructor
      · intro hafter
        by_contra hno
        obtain ⟨hnb, hnc⟩ := not_or.mp hno
        have hd1 : db1 = db := nc1 hnc
        have h2eq : achCount sid t.id db2 = achCount sid t.id db1 :=
          oth2 sid t.id (fun ty hty =>
            type_ids_distinct db hid "First Steps" "Quick Learner" t ty hT
              ((hfind1 "Quick Learner") ▸ hty) (by decide))
        have h3eq : achCount sid t.id db3 = achCount sid t.id db2 :=
          oth3 sid t.id (fun ty hty =>
            type_ids_distinct db hid "First Steps" "Path Completer" t ty hT
              ((hfind2 "Path Completer") ▸ hty) (by decide))
        rw [h3eq, h2eq, hd1] at hafter
        omega
      · intro h
        rcases h with hb | hc
        · have m1 := mono1 sid t.id
          have m2 := mono2 sid t.id
          have m3 := mono3 sid t.id
          omega
        · have hg := gr1 t hT hc
          have m2 := mono2 sid t.id
          have m3 := mono3 sid t.id
          omega
    · intro t hT
      constructor
      · intro hafter
        by_contra hno
        obtain ⟨hnb, hnc⟩ := not_or.mp hno
        have h1eq : achCount sid t.id db1 = achCount sid t.id db :=
          oth1 sid t.id (fun ty hty =>
            type_ids_distinct db hid "Quick Learner" "First Steps" t ty hT
              hty (by decide))
        have hd2 : db2 = db1 := nc2 (by rw [hccount1]; exact hnc)
        have h3eq : achCount sid t.id db3 = achCount sid t.id db2 :=
          oth3 sid t.id (fun ty hty =>
            type_ids_distinct db hid "Quick Learner" "Path Completer" t ty hT
              ((hfind2 "Path Completer") ▸ hty) (by decide))
        rw [h3eq, hd2, h1eq] at hafter
        omega
      · intro h
        rcases h with hb | hc
        · have m1 := mono1 sid t.id
          have m2 := mono2 sid t.id
          have m3 := mono3 sid t.id
          omega
        · have hg := gr2 t (by rw [hfind1]; exact hT) (by rw [hccount1]; exact hc)
          have m3 := mono3 sid t.id
          omega
    · intro t hT
      constructor
      · intro hafter
        by_contra hno
        obtain ⟨hnb, hnc⟩ := not_or.mp hno
        have h1eq : achCount sid t.id db1 = achCount sid t.id db :=
          oth1 sid t.id (fun ty hty =>
            type_ids_distinct db hid "Path Completer" "First Steps" t ty hT
              hty (by decide))
        have h2eq : achCount sid t.id db2 = achCount sid t.id db1 :=
          oth2 sid t.id (fun ty hty =>
            type_ids_distinct db hid "Path Completer" "Quick Learner" t ty hT
              ((hfind1 "Quick Learner") ▸ hty) (by decide))
        have hd3 : db3 = db2 := nc3 (by rw [hpaths2]; exact hnc)
        rw [hd3, h2eq, h1eq] at hafter
        omega
      · intro h
        rcases h with hb | hc
        · have m1 := mono1 sid t.id
          have m2 := mono2 sid t.id
          have m3 := mono3 sid t.id
          omega
        · have hg := gr3 t (by rw [hfind2]; exact hT) (by rw [hpaths2]; exact hc)
          omega

/-- Concrete database for the C7 witness: the three seeded badge types,
student 7 with one completed module (completed at time 3) and one
completed learning path, and no achievements yet. -/
def c7Db : LearnDb :=
  { paths := [],
    modules := [],
    studentPaths := [⟨5, 7, 1, 100, 0, some 1, some 2, true⟩],
    progresses := [⟨3, 7, 1, 5, "completed", 100, 10, some 1, some 3, some 3, none⟩],
    achievementTypes := [⟨1, "First Steps", 10⟩, ⟨2, "Quick Learner", 25⟩,
      ⟨3, "Path Completer", 100⟩],
    studentAchievements := [] }

/-- The witness database satisfies the unique badge name constraint. -/
theorem c7Db_name_unique (n : String) :
    ((c7Db.achievementTypes).filter (achievementTypeByName n)).length ≤ 1 := by
  rcases eq_or_ne n "First Steps" with h | h1
  · subst h; decide
  rcases eq_or_ne n "Quick Learner" with h | h2
  · subst h; decide
  rcases eq_or_ne n "Path Completer" with h | h3
  · subst h; decide
  have e1 : (("First Steps" : String) == n) = false :=
    beq_eq_false_iff_ne.mpr (Ne.symm h1)
  have e2 : (("Quick Learner" : String) == n) = false :=
    beq_eq_false_iff_ne.mpr (Ne.symm h2)
  have e3 : (("Path Completer" : String) == n) = false :=
    beq_eq_false_iff_ne.mpr (Ne.symm h3)
  simp [c7Db, achievementTypeByName, List.filter_cons, e1, e2, e3]

/-- Witness for C7 at the concrete database (now = 9, todayStart = 0). -/
theorem achievements_once_and_grant_conditions_witness :
    ((∀ n, ((c7Db.achievementTypes).filter (achievementTypeByName n)).length ≤ 1)
      ∧ (∀ s t, ((c7Db.studentAchievements).filter
          (studentHasAchievement s t)).length ≤ 1)
      ∧ ((c7Db.achievementTypes).map (fun t => t.id)).Nodup)
    ∧ ((∀ n, c7Db.achievementTypes.find? (achievementTypeByName n) = none →
        awardAchievementIfNew 7 n 9 c7Db = .ok c7Db)
      ∧ (∀ n t, c7Db.achievementTypes.find? (achievementTypeByName n) = some t →
          0 < achCount 7 t.id c7Db →
          awardAchievementIfNew 7 n 9 c7Db = .ok c7Db)
      ∧ ∃ db3, checkAchievements 7 9 0 c7Db = .ok db3 ∧
          (∀ s t, achCount s t db3 ≤ 1) ∧
          (∀ t, c7Db.achievementTypes.find?
              (achievementTypeByName "First Steps") = some t →
            (0 < achCount 7 t.id db3 ↔
              0 < achCount 7 t.id c7Db ∨ 1 ≤ completedCount 7 c7Db)) ∧
          (∀ t, c7Db.achievementTypes.find?
              (achievementTypeByName "Quick Learner") = some t →
            (0 < achCount 7 t.id db3 ↔
              0 < achCount 7 t.id c7Db ∨ 3 ≤ completedTodayCount 7 0 c7Db)) ∧
          (∀ t, c7Db.achievementTypes.find?
              (achievementTypeByName "Path Completer") = some t →
            (0 < achCount 7 t.id db3 ↔
              0 < achCount 7 t.id c7Db ∨ 1 ≤ completedPathsCount 7 c7Db))) := by
  refine ⟨⟨c7Db_name_unique,
    fun s t => le_trans (List.length_filter_le _ _) (by decide), by decide⟩, ?_⟩
  exact achievements_once_and_grant_conditions 7 9 0 c7Db c7Db_name_unique
    (fun s t => le_trans (List.length_filter_le _ _) (by decide)) (by decide)

/-! ## C8: LearningService.update_module_progress (lines 229-292). -/

/-- Python truthiness of the optional notes argument (None and the empty
string are falsy). -/
def truthyNotes : Option String → Bool
  | none => false
  | some s => s != ""

/-- Embedding of update_module_progress: look up the progress row
(ValueError when absent), raise the stored percentage to the maximum of
the old and supplied values, add the supplied minutes, set
last_accessed, replace notes when truthy; when the new percentage
reaches 100 and the status was not yet completed, mark the row completed
and run _update_path_progress and _check_achievements before the commit.
An error leaves the database unchanged: the commit at line 275 is never
reached and the surrounding session rolls back. -/
def updateModuleProgress (sid mid : Nat) (pct : ℚ) (mins : Int)
    (notes : Option String) (now todayStart : Nat) (db : LearnDb) :
    Except String (LearnDb × StudentModuleProgress) :=
  match scalarOneOrNone (db.progresses.filter (progressFor sid mid)) with
  | .error e => .error e
  | .ok none => .error "Module progress not found. Start the module first."
  | .ok (some progress) =>
    let p1 : StudentModuleProgress := { progress with
      progress_percentage := max progress.progress_percentage pct,
      time_spent_minutes := progress.time_spent_minutes + mins,
      last_accessed := some now,
      notes := if truthyNotes notes then notes else progress.notes }
    if 100 ≤ p1.progress_percentage ∧ p1.status ≠ "completed" then
      let p2 : StudentModuleProgress :=
        { p1 with status := "completed", completed_at := some now }
      let db2 : LearnDb := { db with
        progresses := db.progresses.map (fun q => if q.id == p2.id then p2 else q) }
      match updatePathProgress sid p2.student_path_id now db2 with
      | .error e => .error e
      | .ok db3 =>
        match checkAchievements sid now todayStart db3 with
        | .error e => .error e
        | .ok db4 => .ok (db4, p2)
    else
      .ok ({ db with progresses :=
        db.progresses.map (fun q => if q.id == p1.id then p1 else q) }, p1)

/-- Concrete database for the C8 counterexample: student 7 has an
in-progress record at 50 percent on module 1. -/
def c8Db : LearnDb :=
  { paths := [⟨1, "Robotics", "robotics", true⟩],
    modules := [⟨1, 1, 1, true⟩],
    studentPaths := [⟨5, 7, 1, 0, 0, some 1, none, true⟩],
    progresses := [⟨3, 7, 1, 5, "in_progress", 50, 10, some 1, none, some 1, none⟩],
    achievementTypes := [],
    studentAchievements := [] }

/-- Counterexample to C8 as stated: updating the 50-percent record with
the value 100 does not persist the maximum 100; the completion branch
calls _update_path_progress, whose malformed join raises, so the request
fails and the stored record keeps its old percentage (nothing is
committed). -/
theorem update_module_progress_completion_raises :
    updateModuleProgress 7 1 100 5 none 9 0 c8Db =
      .error "NoForeignKeysError: no join condition between learning_modules and student_learning_paths" ∧
    max (50 : ℚ) 100 = 100 := by
  constructor
  · unfold updateModuleProgress
    have hfil : scalarOneOrNone (c8Db.progresses.filter (progressFor 7 1)) =
        .ok (some ⟨3, 7, 1, 5, "in_progress", 50, 10, some 1, none, some 1, none⟩) :=
      rfl
    rw [hfil]
    dsimp only
    rw [if_pos ⟨by norm_num [le_max_iff], by decide⟩]
    rw [updatePathProgress_raises_aux]
  · norm_num [max_eq_right]

/-- C8 amended: when the update does not newly complete the module (the
raised percentage stays below 100, or the record is already completed),
update_module_progress stores the maximum of the old and supplied
percentages - so a value at most the current one leaves the percentage
unchanged - adds the supplied minutes to time_spent_minutes, and never
reverts a completed status; when the update would newly complete the
module, the call instead fails with the path-progress join error (see
the C6 result) and persists nothing.  The hypothesis fixes the student's
unique progress row on the module. -/
theorem update_module_progress_monotone
    (sid mid : Nat) (pct : ℚ) (mins : Int) (notes : Option String)
    (now todayStart : Nat) (db : LearnDb) (pr : StudentModuleProgress)
    (hfind : db.progresses.filter (progressFor sid mid) = [pr]) :
    (¬(100 ≤ max pr.progress_percentage pct ∧ pr.status ≠ "completed") →
      ∃ db2 p1, updateModuleProgress sid mid pct mins notes now todayStart db =
          .ok (db2, p1) ∧
        p1.progress_percentage = max pr.progress_percentage pct ∧
        (pct ≤ pr.progress_percentage →
          p1.progress_percentage = pr.progress_percentage) ∧
        p1.time_spent_minutes = pr.time_spent_minutes + mins ∧
        p1.status = pr.status ∧
        db2.progresses = db.progresses.map (fun q => if q.id == pr.id then p1 else q))
    ∧ (pr.status = "completed" →
        ∃ db2 p1, updateModuleProgress sid mid pct mins notes now todayStart db =
            .ok (db2, p1) ∧ p1.status = "completed" ∧
          p1.progress_percentage = max pr.progress_percentage pct)
    ∧ ((100 ≤ max pr.progress_percentage pct ∧ pr.status ≠ "completed") →
        updateModuleProgress sid mid pct mins notes now todayStart db =
          .error "NoForeignKeysError: no join condition between learning_modules and student_learning_paths") := by
  have hscal : scalarOneOrNone (db.progresses.filter (progressFor sid mid)) =
      .ok (some pr) := by rw [hfind]; rfl
  refine ⟨?_, ?_, ?_⟩
  · intro hnc
    unfold updateModuleProgress
    rw [hscal]
    dsimp only
    rw [if_neg hnc]
    refine ⟨_, _, rfl, ?_, ?_, ?_, ?_, ?_⟩
    · rfl
    · exact fun hle => max_eq_left hle
    · rfl
    · rfl
    · rfl
  · intro hcomp
    unfold updateModuleProgress
    rw [hscal]
    dsimp only
    rw [if_neg (fun hcon => hcon.2 hcomp)]
    refine ⟨_, _, rfl, ?_, ?_⟩
    · exact hcomp
    · rfl
  · intro hc
    unfold updateModuleProgress
    rw [hscal]
    dsimp only
    rw [if_pos hc]
    rw [updatePathProgress_raises_aux]

/-- Witness for the amended C8 theorem: a non-completing update (60 over
a stored 50) on the concrete database. -/
theorem update_module_progress_monotone_witness :
    (c8Db.progresses.filter (progressFor 7 1) =
      [⟨3, 7, 1, 5, "in_progress", 50, 10, some 1, none, some 1, none⟩])
    ∧ ((¬(100 ≤ max (50 : ℚ) 60 ∧ ("in_progress" : String) ≠ "completed") →
        ∃ db2 p1, updateModuleProgress 7 1 60 5 none 9 0 c8Db = .ok (db2, p1) ∧
          p1.progress_percentage = max (50 : ℚ) 60 ∧
          ((60 : ℚ) ≤ 50 → p1.progress_percentage = 50) ∧
          p1.time_spent_minutes = 10 + 5 ∧
          p1.status = "in_progress" ∧
          db2.progresses = c8Db.progresses.map (fun q => if q.id == 3 then p1 else q))
      ∧ (("in_progress" : String) = "completed" →
          ∃ db2 p1, updateModuleProgress 7 1 60 5 none 9 0 c8Db = .ok (db2, p1) ∧
            p1.status = "completed" ∧ p1.progress_percentage = max (50 : ℚ) 60)
      ∧ ((100 ≤ max (50 : ℚ) 60 ∧ ("in_progress" : String) ≠ "completed") →
          updateModuleProgress 7 1 60 5 none 9 0 c8Db =
            .error "NoForeignKeysError: no join condition between learning_modules and student_learning_paths")) := by
  refine ⟨rfl, ?_⟩
  exact update_module_progress_monotone 7 1 60 5 none 9 0 c8Db
    ⟨3, 7, 1, 5, "in_progress", 50, 10, some 1, none, some 1, none⟩ rfl

/-! ## C9: the login endpoint (app/routers/auth.py lines 219-271). -/

/-- Row of the users table, fields the login endpoint reads or writes. -/
structure LoginUser where
  id : Nat
  email : String
  password_hash : String
  is_active : Bool
  failed_login_attempts : Int
  locked_until : Option Nat
  last_login : Option Nat
  deriving Repr, DecidableEq

/-- Outcome of a login request. -/
inductive LoginOutcome
  | token (user_id : Nat)
  | http401
  | http423
  deriving Repr, DecidableEq

/-- Query predicate of auth.py line 229: active user whose stored email
equals the lowercased input email. -/
def loginUserPred (email : String) (u : LoginUser) : Bool :=
  u.email == pyLower email && u.is_active

/-- The user row after a failed attempt (lines 236-239): one more failed
attempt, and a lock 30 minutes (1800 seconds) in the future once the
count reaches 5. -/
def failedLoginUpdate (now : Nat) (u : LoginUser) : LoginUser :=
  { u with
    failed_login_attempts := u.failed_login_attempts + 1,
    locked_until := if 5 ≤ u.failed_login_attempts + 1 then
        some (now + 1800) else u.locked_until }

/-- Modelled from the spec of Python's datetime and the PostgreSQL
drivers: a DateTime(timezone=True) column such as users.locked_until
(models/user.py) is returned as a timezone-aware datetime, and ordering
it with > against the naive result of datetime.utcnow() raises
TypeError instead of returning a truth value. -/
def awareGtNaive (_aware _naive : Nat) : Except String Bool :=
  .error "TypeError: cannot compare offset-naive and offset-aware datetimes"

/-- Embedding of the login endpoint.  verify stands for bcrypt's
verify_password (an external library, abstracted as a parameter).  The
result pairs the users table after the request with the outcome: a
failed attempt is committed (line 240) before 401 is raised; the lockout
check of line 248 runs only after the password check and - when
locked_until is non-null, so the Python and short-circuits into the
comparison - orders the timezone-aware column value against naive
utcnow, which raises TypeError (see awareGtNaive); the endpoint has no
handler, so the error propagates (HTTP 500) and get_db rolls the
transaction back; a successful login (correct password, locked_until
null) resets the counter, clears the lock and stamps last_login. -/
def login (verify : String → String → Bool) (email password : String)
    (now : Nat) (users : List LoginUser) :
    Except String (List LoginUser × LoginOutcome) :=
  match scalarOneOrNone (users.filter (loginUserPred email)) with
  | .error e => .error e
  | .ok none => .ok (users, .http401)
  | .ok (some u) =>
    if verify password u.password_hash = false then
      .ok (users.map (fun v => if v.id == u.id then failedLoginUpdate now u else v),
        .http401)
    else
      match u.locked_until with
      | some l =>
        match awareGtNaive l now with
        | .error e => .error e
        | .ok true => .ok (users, .http423)
        | .ok false =>
          .ok (users.map (fun v => if v.id == u.id then
            { u with failed_login_attempts := 0, locked_until := none,
                     last_login := some now } else v), .token u.id)
      | none =>
        .ok (users.map (fun v => if v.id == u.id then
          { u with failed_login_attempts := 0, locked_until := none,
                   last_login := some now } else v), .token u.id)

/-- Password check used by the C9 theorems: plain equality standing in
for bcrypt verification. -/
def c9Verify : String → String → Bool := fun p h => p == h

/-- Locked user row for the C9 counterexample: active, locked_until set
to 2800 (in the future of the request time 1500). -/
def c9LockedUser : LoginUser := ⟨2, "bob@x.com", "pw", true, 5, some 2800, none⟩

/-- Counterexample to C9 as stated: a correct password while
locked_until lies in the future (request time 1500 < 2800) does not
yield HTTP 423 - the comparison of the timezone-aware locked_until
against naive utcnow at auth.py line 248 raises an unhandled TypeError
(HTTP 500, transaction rolled back), so no committed response of any
kind is produced. -/
theorem login_locked_correct_password_not_423 :
    login c9Verify "bob@x.com" "pw" 1500 [c9LockedUser] =
      .error "TypeError: cannot compare offset-naive and offset-aware datetimes"
    ∧ ∀ r : List LoginUser × LoginOutcome,
        login c9Verify "bob@x.com" "pw" 1500 [c9LockedUser] ≠ .ok r := by
  refine ⟨rfl, fun r h => ?_⟩
  exact Except.noConfusion h

/-- C9 amended: login lockout behaviour.  Conjuncts: an unknown or
inactive email gets 401 with no state change; a failed login for the
(unique) matching active user increments failed_login_attempts and sets
locked_until 30 minutes ahead once the count reaches 5, returning 401;
while locked_until is set - in the future or the past - a correct
password never yields a token or HTTP 423: comparing the timezone-aware
column against naive utcnow raises an unhandled TypeError (HTTP 500)
and the transaction rolls back, leaving the account locked; and a
successful login (correct password, locked_until null) resets the
counter, clears the lock and returns a token. -/
theorem login_lockout (verify : String → String → Bool)
    (email password : String) (now : Nat) (users : List LoginUser)
    (u : LoginUser) (hu : users.filter (loginUserPred email) = [u]) :
    (∀ users0 : List LoginUser, users0.filter (loginUserPred email) = [] →
      login verify email password now users0 = .ok (users0, .http401))
    ∧ (verify password u.password_hash = false →
        login verify email password now users =
          .ok (users.map (fun v => if v.id == u.id then
            failedLoginUpdate now u else v), .http401) ∧
        (failedLoginUpdate now u).failed_login_attempts =
          u.failed_login_attempts + 1 ∧
        (5 ≤ u.failed_login_attempts + 1 →
          (failedLoginUpdate now u).locked_until = some (now + 1800)))
    ∧ (verify password u.password_hash = true →
        ∀ l, u.locked_until = some l →
        login verify email password now users =
          .error "TypeError: cannot compare offset-naive and offset-aware datetimes")
    ∧ (verify password u.password_hash = true → u.locked_until = none →
        login verify email password now users =
          .ok (users.map (fun v => if v.id == u.id then
            { u with failed_login_attempts := 0, locked_until := none,
                     last_login := some now } else v), .token u.id)) := by
  have hscal : scalarOneOrNone (users.filter (loginUserPred email)) =
      .ok (some u) := by rw [hu]; rfl
  refine ⟨?_, ?_, ?_, ?_⟩
  · intro users0 h0
    unfold login
    rw [h0]
    rfl
  · intro hv
    refine ⟨?_, rfl, fun h5 => ?_⟩
    · unfold login
      rw [hscal]
      dsimp only
      rw [if_pos hv]
    · unfold failedLoginUpdate
      dsimp only
      rw [if_pos h5]
  · intro hv l hl
    have hne : ¬(verify password u.password_hash = false) := by rw [hv]; decide
    unfold login
    rw [hscal]
    dsimp only
    rw [if_neg hne, hl]
    rfl
  · intro hv hnone
    have hne : ¬(verify password u.password_hash = false) := by rw [hv]; decide
    unfold login
    rw [hscal]
    dsimp only
    rw [if_neg hne, hnone]

/-- User row for the C9 witness: active, 4 failed attempts, not locked. -/
def c9User : LoginUser := ⟨1, "ann@x.com", "Secret1!", true, 4, none, none⟩

/-- Users table for the C9 witness. -/
def c9Users : List LoginUser := [c9User]

/-- Witness for C9 at a concrete users table; the mixed-case input email
matches the stored lowercase one. -/
theorem login_lockout_witness :
    (c9Users.filter (loginUserPred "Ann@X.com") = [c9User])
    ∧ ((∀ users0 : List LoginUser,
          users0.filter (loginUserPred "Ann@X.com") = [] →
          login c9Verify "Ann@X.com" "pw" 1000 users0 = .ok (users0, .http401))
      ∧ (c9Verify "pw" c9User.password_hash = false →
          login c9Verify "Ann@X.com" "pw" 1000 c9Users =
            .ok (c9Users.map (fun v => if v.id == c9User.id then
              failedLoginUpdate 1000 c9User else v), .http401) ∧
          (failedLoginUpdate 1000 c9User).failed_login_attempts =
            c9User.failed_login_attempts + 1 ∧
          (5 ≤ c9User.failed_login_attempts + 1 →
            (failedLoginUpdate 1000 c9User).locked_until = some (1000 + 1800)))
      ∧ (c9Verify "pw" c9User.password_hash = true →
          ∀ l, c9User.locked_until = some l →
          login c9Verify "Ann@X.com" "pw" 1000 c9Users =
            .error "TypeError: cannot compare offset-naive and offset-aware datetimes")
      ∧ (c9Verify "pw" c9User.password_hash = true →
          c9User.locked_until = none →
          login c9Verify "Ann@X.com" "pw" 1000 c9Users =
            .ok (c9Users.map (fun v => if v.id == c9User.id then
              { c9User with failed_login_attempts := 0, locked_until := none,
                            last_login := some 1000 } else v),
              .token c9User.id))) :=
  ⟨rfl, login_lockout c9Verify "Ann@X.com" "pw" 1000 c9Users c9User rfl⟩

/-! ## C10: the register endpoint (app/routers/auth.py lines 121-217)
and the validators of app/core/security.py.  Inputs are the request data
after FastAPI model validation; the relevant config values
(PASSWORD_MIN_LENGTH, REQUIRE_STRONG_PASSWORDS) are parameters with
source defaults 8 and true. -/

/-- Character class of the local part of the email regex. -/
def isLocalChar (c : Char) : Bool :=
  c.isAlpha || c.isDigit || c == '.' || c == '_' || c == '%' || c == '+' || c == '-'

/-- Character class of the domain part of the email regex. -/
def isDomainChar (c : Char) : Bool :=
  c.isAlpha || c.isDigit || c == '.' || c == '-'

/-- Embedding of SecurityService.validate_email, the anchored regex
matching one or more local characters, an at sign, one or more domain
characters, a dot, and two or more letters: the string matches exactly
when such a decomposition exists (the at sign occurs in no other
class, so its position is unique). -/
def validEmail (s : String) : Bool :=
  let cs := s.data
  (List.range cs.length).any (fun i =>
    cs.getD i ' ' == '@' && decide (0 < i) && (cs.take i).all isLocalChar &&
    (List.range cs.length).any (fun j =>
      decide (i + 2 ≤ j) && cs.getD j ' ' == '.' &&
      ((cs.drop (i + 1)).take (j - i - 1)).all isDomainChar &&
      decide (2 ≤ cs.length - (j + 1)) && (cs.drop (j + 1)).all Char.isAlpha))

/-- The common passwords list of validate_password_strength. -/
def commonPasswords : List String :=
  ["password", "123456", "password123", "admin", "letmein"]

/-- The special character class of validate_password_strength. -/
def specialChars : List Char :=
  ['!', '@', '#', '$', '%', '^', '&', '*', '(', ')', '_', '+', '-', '=',
   '[', ']', '\x7b', '\x7d', ';', '\'', ':', '\"', '\\', '|', ',', '.',
   '<', '>', '?']

/-- Embedding of the score of validate_password_strength: 2 points for
the length, 1 each for an uppercase letter, a lowercase letter and a
digit, 2 for a special character, all reset to 0 for a common
password. -/
def passwordScore (minLen : Nat) (password : String) : Nat :=
  let s1 := if minLen ≤ password.length then 2 else 0
  let s2 := if password.data.any (fun c => 'A' ≤ c && c ≤ 'Z') then 1 else 0
  let s3 := if password.data.any (fun c => 'a' ≤ c && c ≤ 'z') then 1 else 0
  let s4 := if password.data.any (fun c => '0' ≤ c && c ≤ '9') then 1 else 0
  let s5 := if password.data.any (fun c => specialChars.contains c) then 2 else 0
  if commonPasswords.contains (pyLower password) then 0
  else s1 + s2 + s3 + s4 + s5

/-- Embedding of the is_valid flag: score at least 5 with strong
passwords required (the default), else at least 2. -/
def passwordValid (minLen : Nat) (requireStrong : Bool) (password : String) : Bool :=
  if requireStrong then 5 ≤ passwordScore minLen password
  else 2 ≤ passwordScore minLen password

/-- Python str.strip default whitespace (the ASCII portion). -/
def isPyWhitespace (c : Char) : Bool :=
  c == ' ' || c == '\t' || c == '\n' || c == '\r' || c == '\x0b' || c == '\x0c'

/-- Embedding of SecurityService.sanitize_input on a present string:
drop null bytes, strip surrounding whitespace, truncate to 1000
characters. -/
def pySanitize (s : String) : String :=
  let t := pyReplace s (String.mk ['\x00']) ""
  let t := String.mk ((t.data.dropWhile isPyWhitespace).reverse.dropWhile
    isPyWhitespace).reverse
  if 1000 < t.length then String.mk (t.data.take 1000) else t

/-- Row of the users table, fields the register endpoint writes. -/
structure RegUserRow where
  id : Nat
  email : String
  password_hash : String
  first_name : String
  last_name : String
  phone : Option String
  deriving Repr, DecidableEq

/-- Row of the students table, fields the register endpoint writes. -/
structure RegStudentRow where
  id : Nat
  user_id : Nat
  student_name : String
  age : Int
  deriving Repr, DecidableEq

/-- The two tables the register endpoint touches. -/
structure RegDb where
  users : List RegUserRow
  students : List RegStudentRow
  deriving Repr, DecidableEq

/-- Outcome of a register request. -/
inductive RegResult
  | created (user_id : Nat)
  | http400
  | http500
  deriving Repr, DecidableEq

/-- The request payload after FastAPI validation (the fields the claims
concern). -/
structure RegistrationInput where
  email : String
  password : String
  first_name : String
  last_name : String
  phone : Option String
  student_name : String
  age : Int
  deriving Repr, DecidableEq

/-- Embedding of the register endpoint: validate the email format, the
password strength and the student age (HTTP 400 on failure of any,
creating nothing); reject with 400 when a stored user's email equals the
raw input email; then, inside the try block, insert the User (email
lowercased, names sanitized) and the Student in one transaction - when
the lowercased email collides with a stored one the unique constraint on
users.email makes the commit fail, the except branch rolls back both
inserts and returns HTTP 500. -/
def register (minLen : Nat) (requireStrong : Bool) (hash : String → String)
    (newUserId newStudentId : Nat) (input : RegistrationInput) (db : RegDb) :
    RegDb × RegResult :=
  if validEmail input.email = false then (db, .http400)
  else if passwordValid minLen requireStrong input.password = false then (db, .http400)
  else if ¬(5 ≤ input.age ∧ input.age ≤ 18) then (db, .http400)
  else
    match scalarOneOrNone (db.users.filter (fun u => u.email == input.email)) with
    | .error _ => (db, .http500)
    | .ok (some _) => (db, .http400)
    | .ok none =>
      if db.users.any (fun u => u.email == pyLower input.email) then
        (db, .http500)
      else
        let newUser : RegUserRow :=
          ⟨newUserId, pyLower input.email, hash input.password,
           pySanitize input.first_name, pySanitize input.last_name,
           match input.phone with
           | some p => if p != "" then some (pySanitize p) else none
           | none => none⟩
        let newStudent : RegStudentRow :=
          ⟨newStudentId, newUserId, pySanitize input.student_name, input.age⟩
        ({ users := db.users ++ [newUser],
           students := db.students ++ [newStudent] }, .created newUserId)

/-- Stored users table for the C10 counterexample: the address is
stored lowercased, as registration always stores it. -/
def c10Db : RegDb :=
  { users := [⟨1, "foo@bar.com", "h", "A", "B", none⟩], students := [] }

/-- Registration input for the C10 counterexample: same address with a
capital letter, valid password and age. -/
def c10Input : RegistrationInput :=
  ⟨"Foo@bar.com", "Abcdef1!", "Ann", "Lee", none, "Kid", 10⟩

/-- Counterexample to C10 as stated: the address Foo@bar.com is already
registered (stored lowercased as foo@bar.com), yet the endpoint does not
reject with HTTP 400 - the case-sensitive duplicate check at line 144
misses the stored row, the insert of the lowercased email violates the
unique constraint, and the except branch rolls back and returns HTTP
500. -/
theorem register_duplicate_case_mismatch_not_400 :
    register 8 true (fun s => s) 99 100 c10Input c10Db = (c10Db, .http500) ∧
    pyLower "Foo@bar.com" = "foo@bar.com" ∧
    RegResult.http500 ≠ RegResult.http400 :=
  ⟨rfl, rfl, by decide⟩

/-- C10 amended: the register endpoint rejects with HTTP 400 - creating
neither a User nor a Student row - when the email fails the format
regex, the password fails the strength check, the student age lies
outside 5..18, or a stored user's email equals the raw input email
exactly; when the input email differs only in case from a stored
(lowercased) email, the case-sensitive duplicate check misses it and the
request instead fails with HTTP 500, the transaction rolled back and
both rows discarded; otherwise it creates exactly one User (email stored
lowercased) and one Student linked to it, in one transaction.  The
hypothesis is the unique constraint on stored emails. -/
theorem register_validation_and_atomicity
    (minLen : Nat) (requireStrong : Bool) (hash : String → String)
    (newUserId newStudentId : Nat) (input : RegistrationInput) (db : RegDb)
    (huniq : (db.users.filter (fun u => u.email == input.email)).length ≤ 1) :
    (validEmail input.email = false →
      register minLen requireStrong hash newUserId newStudentId input db =
        (db, .http400))
    ∧ (validEmail input.email = true →
        passwordValid minLen requireStrong input.password = false →
        register minLen requireStrong hash newUserId newStudentId input db =
          (db, .http400))
    ∧ (validEmail input.email = true →
        passwordValid minLen requireStrong input.password = true →
        ¬(5 ≤ input.age ∧ input.age ≤ 18) →
        register minLen requireStrong hash newUserId newStudentId input db =
          (db, .http400))
    ∧ (validEmail input.email = true →
        passwordValid minLen requireStrong input.password = true →
        (5 ≤ input.age ∧ input.age ≤ 18) →
        db.users.any (fun u => u.email == input.email) = true →
        register minLen requireStrong hash newUserId newStudentId input db =
          (db, .http400))
    ∧ (validEmail input.email = true →
        passwordValid minLen requireStrong input.password = true →
        (5 ≤ input.age ∧ input.age ≤ 18) →
        db.users.any (fun u => u.email == input.email) = false →
        db.users.any (fun u => u.email == pyLower input.email) = true →
        register minLen requireStrong hash newUserId newStudentId input db =
          (db, .http500))
    ∧ (validEmail input.email = true →
        passwordValid minLen requireStrong input.password = true →
        (5 ≤ input.age ∧ input.age ≤ 18) →
        db.users.any (fun u => u.email == input.email) = false →
        db.users.any (fun u => u.email == pyLower input.email) = false →
        register minLen requireStrong hash newUserId newStudentId input db =
          ({ users := db.users ++
              [⟨newUserId, pyLower input.email, hash input.password,
                pySanitize input.first_name, pySanitize input.last_name,
                match input.phone with
                | some p => if p != "" then some (pySanitize p) else none
                | none => none⟩],
             students := db.students ++
              [⟨newStudentId, newUserId, pySanitize input.student_name,
                input.age⟩] }, .created newUserId)) := by
  refine ⟨?_, ?_, ?_, ?_, ?_, ?_⟩
  · intro h1
    unfold register
    rw [if_pos h1]
  · intro h1 h2
    unfold register
    rw [if_neg (by rw [h1]; decide), if_pos h2]
  · intro h1 h2 h3
    unfold register
    rw [if_neg (by rw [h1]; decide), if_neg (by rw [h2]; decide), if_pos h3]
  · intro h1 h2 h3 h4
    unfold register
    rw [if_neg (by rw [h1]; decide), if_neg (by rw [h2]; decide),
      if_neg (not_not_intro h3)]
    obtain ⟨u, humem, hupred⟩ := List.any_eq_true.mp h4
    have humem2 : u ∈ db.users.filter (fun v => v.email == input.email) :=
      List.mem_filter.mpr ⟨humem, hupred⟩
    rcases hfil : db.users.filter (fun v => v.email == input.email) with
      _ | ⟨x, _ | ⟨y, t⟩⟩
    · rw [hfil] at humem2; simp at humem2
    · rw [hfil]
      rfl
    · rw [hfil] at huniq; simp at huniq
  · intro h1 h2 h3 h4 h5
    unfold register
    rw [if_neg (by rw [h1]; decide), if_neg (by rw [h2]; decide),
      if_neg (not_not_intro h3)]
    have hfil : db.users.filter (fun v => v.email == input.email) = [] :=
      List.filter_eq_nil_iff.mpr (by simpa using List.any_eq_false.mp h4)
    rw [hfil]
    dsimp only [scalarOneOrNone]
    rw [h5]
    rfl
  · intro h1 h2 h3 h4 h5
    unfold register
    rw [if_neg (by rw [h1]; decide), if_neg (by rw [h2]; decide),
      if_neg (not_not_intro h3)]
    have hfil : db.users.filter (fun v => v.email == input.email) = [] :=
      List.filter_eq_nil_iff.mpr (by simpa using List.any_eq_false.mp h4)
    rw [hfil]
    dsimp only [scalarOneOrNone]
    rw [h5]
    rfl

/-- Empty database for the C10 witness. -/
def c10EmptyDb : RegDb := { users := [], students := [] }

/-- Witness for the amended C10 theorem: registering on an empty
database succeeds, storing the email lowercased and one linked student
row. -/
theorem register_validation_and_atomicity_witness :
    ((c10EmptyDb.users.filter (fun u => u.email == c10Input.email)).length ≤ 1)
    ∧ (validEmail c10Input.email = true ∧
       passwordValid 8 true c10Input.password = true ∧
       (5 ≤ c10Input.age ∧ c10Input.age ≤ 18) ∧
       c10EmptyDb.users.any (fun u => u.email == c10Input.email) = false ∧
       c10EmptyDb.users.any (fun u => u.email == pyLower c10Input.email) = false)
    ∧ register 8 true (fun s => s) 99 100 c10Input c10EmptyDb =
        ({ users := c10EmptyDb.users ++
            [⟨99, pyLower c10Input.email, (fun s => s) c10Input.password,
              pySanitize c10Input.first_name, pySanitize c10Input.last_name,
              match c10Input.phone with
              | some p => if p != "" then some (pySanitize p) else none
              | none => none⟩],
           students := c10EmptyDb.students ++
            [⟨100, 99, pySanitize c10Input.student_name, c10Input.age⟩] },
          .created 99) := by
  refine ⟨by decide, ⟨rfl, rfl, by decide, rfl, rfl⟩, ?_⟩
  exact (register_validation_and_atomicity 8 true (fun s => s) 99 100 c10Input
    c10EmptyDb (by decide)).2.2.2.2.2 rfl rfl (by decide) rfl rfl

end CifixLearn
